import Mathlib

/-!
# Verification of the `dungeon` engine against its specification

This file shallowly embeds the Python sources of the `dungeon` repository
(`src/dungeon/generation.py`, `model.py`, `engine.py`, `encounter.py`,
`vendor.py`, `constants.py`) and proves or refutes the specification claims
about them.

Randomness model: the shared `random.Random` generator is embedded as a
stream of natural numbers together with a position.  Each primitive draw
(`random()`, `randint(a, b)`, `randrange(n)`, `choice(xs)`) consumes exactly
one stream element; the element is reduced into the requested range with a
modulus, so every sequence of in-range outcomes is realised by some stream.
`random()` returns a value `k / 2 ^ 53` encoded by its numerator
`k < 2 ^ 53`, matching the granularity of CPython's `random()`; the
threshold comparisons used by the sources (`> 0.3`, `< 0.05`, `< 0.4`,
`> 0.7`) are stated as exact integer inequalities on `k`, which agree with
the IEEE-754 comparisons CPython performs at these four constants.

Rejection-sampling loops (`while True: ...` in treasure/stair/exit
placement, `_random_relocate`) and the recursive room re-entry of
`_enter_room` are embedded with an explicit fuel parameter and return
`Option`; `none` means the Python loop would still be running.
-/

namespace Dungeon

set_option maxRecDepth 100000

/-- Numerator bound for `random.random()` draws: CPython produces `k / 2^53`. -/
def floatDenom : Nat := 2 ^ 53

/-- The shared random generator: an infinite stream of raw draws and the
position of the next draw.  Mirrors `random.Random` threaded through the
sources by reference. -/
structure Rng where
  stream : Nat → Nat
  pos : Nat

/-- Consume one raw draw. -/
def Rng.next (r : Rng) : Nat × Rng :=
  (r.stream r.pos, { r with pos := r.pos + 1 })

/-- `rng.random()`: a uniform draw from `[0,1)`, encoded by its numerator
over `2^53`. -/
def Rng.randFloat (r : Rng) : Nat × Rng :=
  let (v, r') := r.next
  (v % floatDenom, r')

/-- `rng.randint(a, b)`: a uniform draw from the inclusive range `[a, b]`. -/
def Rng.randint (r : Rng) (a b : Nat) : Nat × Rng :=
  let (v, r') := r.next
  (a + v % (b + 1 - a), r')

/-- `rng.randrange(n)`: a uniform draw from `[0, n)`. -/
def Rng.randrange (r : Rng) (n : Nat) : Nat × Rng :=
  let (v, r') := r.next
  (v % n, r')

/-- `rng.choice(xs)` for a nonempty list: a uniformly drawn element. -/
def Rng.choice {α : Type} [Inhabited α] (r : Rng) (xs : List α) : α × Rng :=
  let (v, r') := r.next
  (xs.getD (v % xs.length) default, r')

/-- `constants.Feature`: the room feature enumeration, with the numeric
values of `constants.py`. -/
inductive Feature where
  | EMPTY | MIRROR | SCROLL | CHEST | FLARES | POTION
  | VENDOR | THIEF | WARP | STAIRS_UP | STAIRS_DOWN | EXIT
  deriving DecidableEq, Repr

/-- Numeric value of a feature, as in `constants.Feature`. -/
def Feature.val : Feature → Nat
  | .EMPTY => 0 | .MIRROR => 1 | .SCROLL => 2 | .CHEST => 3
  | .FLARES => 4 | .POTION => 5 | .VENDOR => 6 | .THIEF => 7
  | .WARP => 8 | .STAIRS_UP => 9 | .STAIRS_DOWN => 10 | .EXIT => 11

/-- `Feature(n)` for the numeric values used by the sources. -/
def featureOfNat : Nat → Feature
  | 1 => .MIRROR | 2 => .SCROLL | 3 => .CHEST | 4 => .FLARES
  | 5 => .POTION | 6 => .VENDOR | 7 => .THIEF | 8 => .WARP
  | 9 => .STAIRS_UP | 10 => .STAIRS_DOWN | 11 => .EXIT
  | _ => .EMPTY

/-- `constants.Spell`. -/
inductive Spell where
  | PROTECTION | FIREBALL | LIGHTNING | WEAKEN | TELEPORT
  deriving DecidableEq, Repr

/-- `Spell(n)` for `n` in `1..5`. -/
def spellOfNat : Nat → Spell
  | 1 => .PROTECTION | 2 => .FIREBALL | 3 => .LIGHTNING
  | 4 => .WEAKEN | _ => .TELEPORT

/-- `constants.Mode`. -/
inductive Mode where
  | EXPLORE | ENCOUNTER | GAME_OVER | VICTORY
  deriving DecidableEq, Repr

/-- `model.Room`. -/
structure Room where
  feature : Feature := .EMPTY
  monster_level : Nat := 0
  treasure_id : Nat := 0
  seen : Bool := false
  deriving DecidableEq, Repr

instance : Inhabited Room := ⟨{}⟩

/-- The dungeon's room storage, indexed `rooms[z][y][x]`.  The Python lists
are always built 7×7×7; the embedding uses a total function on indices. -/
def Grid : Type := Nat → Nat → Nat → Room

/-- Write one room of the grid. -/
def setRoom (g : Grid) (z y x : Nat) (room : Room) : Grid :=
  fun z' y' x' => if z' = z ∧ y' = y ∧ x' = x then room else g z' y' x'

/-- The grid all of whose rooms are fresh `Room()` values. -/
def emptyGrid : Grid := fun _ _ _ => {}

/-! ## `generation.py` -/

/-- `generation._create_room`: fill one room.  `rng.random() > 0.3` is the
exact comparison `10 * k > 3 * 2^53` on the draw's numerator `k`. -/
def create_room (r : Rng) (floor : Nat) : Room × Rng :=
  let (k, r₁) := r.randFloat
  if 10 * k > 3 * floatDenom then
    let (roll, r₂) := r₁.randint 1 10
    if roll > 8 then
      let min_level := floor + 1
      let max_level := min 10 (min_level + 5)
      let (lvl, r₃) := r₂.randint min_level max_level
      ({ monster_level := lvl }, r₃)
    else
      ({ feature := featureOfNat roll }, r₂)
  else
    ({}, r₁)

/-- Cell coordinates in the order the generator's list comprehension
creates rooms: `z` outermost, then `y`, then `x`. -/
def gridCells : List (Nat × Nat × Nat) :=
  (List.range 7).flatMap fun z =>
    (List.range 7).flatMap fun y =>
      (List.range 7).map fun x => (z, y, x)

/-- Create the rooms of `generate_dungeon`'s comprehension in order,
threading the generator. -/
def fill_rooms : List (Nat × Nat × Nat) → Grid → Rng → Grid × Rng
  | [], g, r => (g, r)
  | c :: rest, g, r =>
    let (room, r') := create_room r c.1
    fill_rooms rest (setRoom g c.1 c.2.1 c.2.2 room) r'

/-- `generation._place_treasures`: the rejection-sampling loop, with fuel.
`placed` is the count of treasures already placed. -/
def place_treasures : Nat → Nat → Grid → Rng → Option (Grid × Rng)
  | 0, _, _, _ => none
  | fuel + 1, placed, g, r =>
    if placed ≥ 10 then some (g, r)
    else
      let (z, r₁) := r.randrange 7
      let (y, r₂) := r₁.randrange 7
      let (x, r₃) := r₂.randrange 7
      let room := g z y x
      if room.treasure_id ≠ 0 then place_treasures fuel placed g r₃
      else if room.feature ≠ .EMPTY then place_treasures fuel placed g r₃
      else
        place_treasures fuel (placed + 1)
          (setRoom g z y x { room with treasure_id := placed + 1 }) r₃

/-- One iteration batch of `generation._place_stairs`: the inner
`while True` loop for floor `z`, with fuel. -/
def place_stair_one (z : Nat) : Nat → Grid → Rng → Option (Grid × Rng)
  | 0, _, _ => none
  | fuel + 1, g, r =>
    let (y, r₁) := r.randrange 7
    let (x, r₂) := r₁.randrange 7
    let room := g z y x
    let room_below := g (z + 1) y x
    if room.treasure_id > 0 ∨ room.monster_level > 0 then
      place_stair_one z fuel g r₂
    else if room_below.treasure_id > 0 ∨ room_below.monster_level > 0 then
      place_stair_one z fuel g r₂
    else if room.feature = .STAIRS_DOWN then
      place_stair_one z fuel g r₂
    else
      some (setRoom (setRoom g z y x { room with feature := .STAIRS_UP })
              (z + 1) y x { room_below with feature := .STAIRS_DOWN }, r₂)

/-- The `for z in range(SIZE - 1)` loop of `generation._place_stairs`,
processing the listed floors in order. -/
def place_stairs_aux (fuel : Nat) : List Nat → Grid → Rng → Option (Grid × Rng)
  | [], g, r => some (g, r)
  | z :: zs, g, r =>
    match place_stair_one z fuel g r with
    | none => none
    | some (g', r') => place_stairs_aux fuel zs g' r'

/-- `generation._place_stairs`. -/
def place_stairs (fuel : Nat) (g : Grid) (r : Rng) : Option (Grid × Rng) :=
  place_stairs_aux fuel (List.range 6) g r

/-- `generation._place_exit`: the rejection loop on the deepest floor. -/
def place_exit : Nat → Grid → Rng → Option (Grid × Rng)
  | 0, _, _ => none
  | fuel + 1, g, r =>
    let z := 6
    let (y, r₁) := r.randrange 7
    let (x, r₂) := r₁.randrange 7
    let room := g z y x
    if room.treasure_id > 0 ∨ room.monster_level > 0 then
      place_exit fuel g r₂
    else if room.feature = .STAIRS_UP ∨ room.feature = .STAIRS_DOWN ∨
        room.feature = .EXIT then
      place_exit fuel g r₂
    else
      some (setRoom g z y x { room with feature := .EXIT }, r₂)

/-- `generation.generate_dungeon`, with fuel for the rejection loops:
fill the grid in comprehension order, then place treasures, stairs and
the exit. -/
def generate_dungeon (r : Rng) (fuel : Nat) : Option (Grid × Rng) :=
  let fr := fill_rooms gridCells emptyGrid r
  (place_treasures fuel 0 fr.1 fr.2).bind fun p₁ =>
    (place_stairs fuel p₁.1 p₁.2).bind fun p₂ =>
      place_exit fuel p₂.1 p₂.2

/-! ## `generation.validate_dungeon` -/

/-- All `(y, x)` positions of one floor. -/
def floorSquare : Finset (Nat × Nat) := Finset.range 7 ×ˢ Finset.range 7

/-- All `(z, y, x)` positions of the dungeon. -/
def cube : Finset (Nat × Nat × Nat) :=
  Finset.range 7 ×ˢ Finset.range 7 ×ˢ Finset.range 7

/-- The validator's `exit_count`. -/
def exit_count (g : Grid) : Nat :=
  (cube.filter fun c => (g c.1 c.2.1 c.2.2).feature = .EXIT).card

/-- The validator's `treasure_count` (`if room.treasure_id:` counts the
rooms with a nonzero id). -/
def treasure_count (g : Grid) : Nat :=
  (cube.filter fun c => (g c.1 c.2.1 c.2.2).treasure_id ≠ 0).card

/-- The validator's `stairs_up_counts[z]`. -/
def stairs_up_count (g : Grid) (z : Nat) : Nat :=
  (floorSquare.filter fun p => (g z p.1 p.2).feature = .STAIRS_UP).card

/-- The validator's `stairs_down_counts[z]`. -/
def stairs_down_count (g : Grid) (z : Nat) : Nat :=
  (floorSquare.filter fun p => (g z p.1 p.2).feature = .STAIRS_DOWN).card

/-- The per-room error strings of `validate_dungeon`, in source order. -/
def room_errors (g : Grid) (z y x : Nat) : List String :=
  (if (g z y x).feature = .EXIT ∧ z ≠ 6 then
        ["Exit placed on non-final floor."] else [])
  ++ (if (g z y x).treasure_id ≠ 0 ∧ (g z y x).feature ≠ .EMPTY then
        ["Treasure placed in non-empty room."] else [])
  ++ (if (g z y x).monster_level > 0 ∧ (g z y x).feature ≠ .EMPTY then
        ["Monster placed in room with feature."] else [])
  ++ (if (g z y x).feature = .STAIRS_UP ∧ z = 6 then
        ["Stairs up on final floor."] else [])
  ++ (if (g z y x).feature = .STAIRS_UP ∧ z ≠ 6 ∧
        (g (z + 1) y x).feature ≠ .STAIRS_DOWN then
        ["Stair alignment mismatch."] else [])
  ++ (if (g z y x).feature = .STAIRS_DOWN ∧ z = 0 then
        ["Stairs down on first floor."] else [])
  ++ (if (g z y x).feature = .STAIRS_DOWN ∧ z ≠ 0 ∧
        (g (z - 1) y x).feature ≠ .STAIRS_UP then
        ["Stair alignment mismatch."] else [])
  ++ (if ((g z y x).feature = .EXIT ∨ (g z y x).feature = .STAIRS_UP ∨
          (g z y x).feature = .STAIRS_DOWN) ∧
        ((g z y x).monster_level > 0 ∨ (g z y x).treasure_id > 0) then
        ["Feature placed in room with monster or treasure."] else [])

/-- The per-floor staircase-count error strings of `validate_dungeon`. -/
def floor_errors (g : Grid) (z : Nat) : List String :=
  (if z < 6 ∧ stairs_up_count g z ≠ 1 then
      ["Floor must contain exactly one staircase up."] else [])
  ++ (if z = 6 ∧ stairs_up_count g z ≠ 0 then
      ["Final floor must not contain staircase up."] else [])
  ++ (if z > 0 ∧ stairs_down_count g z ≠ 1 then
      ["Floor must contain exactly one staircase down."] else [])
  ++ (if z = 0 ∧ stairs_down_count g z ≠ 0 then
      ["First floor must not contain staircase down."] else [])

/-- `generation.validate_dungeon`: every invariant re-check; the structural
row-length checks of the Python lists are fixed by the grid type. -/
def validate_dungeon (g : Grid) : List String :=
  ((List.range 7).flatMap fun z =>
    (List.range 7).flatMap fun y =>
      (List.range 7).flatMap fun x => room_errors g z y x)
  ++ ((List.range 7).flatMap fun z => floor_errors g z)
  ++ (if exit_count g ≠ 1 then ["Dungeon must contain exactly one exit."] else [])
  ++ (if treasure_count g ≠ 10 then
      ["Dungeon must contain exactly 10 treasures."] else [])

/-! ## `model.py`, `constants.py`: player, events, game state -/

/-- `constants.Race`. -/
inductive Race where
  | HUMAN | DWARF | ELF | HALFLING
  deriving DecidableEq, Repr

/-- `model.Player`.  Numeric attributes that Python may drive negative
(hit points, gold, attribute deltas) are integers. -/
structure Player where
  z : Nat
  y : Nat
  x : Nat
  race : Race
  str_ : Int
  dex : Int
  iq : Int
  hp : Int
  mhp : Int
  gold : Int
  flares : Int
  treasures_found : Finset Nat
  weapon_tier : Nat
  armor_tier : Nat
  weapon_name : String
  weapon_broken : Bool
  armor_name : String
  armor_damaged : Bool
  spells : Spell → Nat
  fatigued : Bool
  temp_armor_bonus : Int

/-- `constants.MONSTER_NAMES`. -/
def MONSTER_NAMES : List String :=
  ["Skeleton", "Goblin", "Kobold", "Orc", "Troll", "Werewolf", "Banshee",
    "Hellhound", "Chimaera", "Dragon"]

/-- `constants.TREASURE_NAMES`. -/
def TREASURE_NAMES : List String :=
  ["Gold Fleece", "Black Pearl", "Ruby Ring", "Diamond Clasp",
    "Silver Medallion", "Precious Spices", "Sapphire", "Golden Circlet",
    "Jeweled Cross", "Silmaril"]

/-- `constants.WEAPON_NAMES`. -/
def WEAPON_NAMES : List String :=
  ["(None)", "Dagger", "Short sword", "Broadsword"]

/-- `constants.ARMOR_NAMES`. -/
def ARMOR_NAMES : List String :=
  ["(None)", "Leather", "Wooden", "Chain mail"]

/-- `constants.WEAPON_PRICES` and `constants.ARMOR_PRICES` (equal). -/
def tier_price (tier : Nat) : Int :=
  if tier = 1 then 10 else if tier = 2 then 20 else 30

/-- `constants.SPELL_PRICES`. -/
def spell_price : Spell → Int
  | .PROTECTION => 50 | .FIREBALL => 30 | .LIGHTNING => 50
  | .WEAKEN => 75 | .TELEPORT => 80

/-- `constants.POTION_PRICES`. -/
def healing_potion_price : Int := 50

/-- `constants.POTION_PRICES["ATTRIBUTE"]`. -/
def attribute_potion_price : Int := 100

/-- The lower-cased `Spell.name` used by `_read_scroll`. -/
def spell_name_lower : Spell → String
  | .PROTECTION => "protection" | .FIREBALL => "fireball"
  | .LIGHTNING => "lightning" | .WEAKEN => "weaken" | .TELEPORT => "teleport"

/-- `model.Player.apply_attribute_change`: clamp STR/DEX/IQ to `[1, 18]`,
keep max HP at least 1 and re-clamp current HP to the new maximum.
Targets outside the four known strings leave the player unchanged. -/
def Player.apply_attribute_change (p : Player) (target : String)
    (change : Int) : Player :=
  if target = "STR" then { p with str_ := max 1 (min 18 (p.str_ + change)) }
  else if target = "DEX" then { p with dex := max 1 (min 18 (p.dex + change)) }
  else if target = "IQ" then { p with iq := max 1 (min 18 (p.iq + change)) }
  else if target = "MHP" then
    { p with
      mhp := max 1 (p.mhp + change)
      hp := max 1 (min (p.hp + change) (max 1 (p.mhp + change))) }
  else p

/-- `engine.Game._apply_attribute_change`: optionally randomize the sign
of the delta (one `choice([-1, 1])` draw), then clamp as in the model;
any target other than STR/DEX/IQ falls into the MHP branch. -/
def engine_apply_attribute_change (p : Player) (r : Rng) (target : String)
    (change : Int) (randomize : Bool) : Player × Rng :=
  let (sign, r₁) := if randomize then r.choice [(-1 : Int), 1] else (1, r)
  let delta := change * sign
  if target = "STR" then
    ({ p with str_ := max 1 (min 18 (p.str_ + delta)) }, r₁)
  else if target = "DEX" then
    ({ p with dex := max 1 (min 18 (p.dex + delta)) }, r₁)
  else if target = "IQ" then
    ({ p with iq := max 1 (min 18 (p.iq + delta)) }, r₁)
  else
    ({ p with
      mhp := max 1 (p.mhp + delta)
      hp := max 1 (min (p.hp + delta) (max 1 (p.mhp + delta))) }, r₁)

/-- `types.Event`, reduced to the payloads the engine produces (status and
map snapshots carry no text relevant here). -/
inductive Event where
  | info (text : String)
  | error (text : String)
  | combat (text : String)
  | loot (text : String)
  | promptE (text : String)
  | statusE
  | mapE
  | debug (text : String)
  deriving DecidableEq, Repr

/-- `types.StepResult`. -/
structure StepResult where
  events : List Event
  mode : Mode
  needs_input : Bool
  deriving Repr

/-- The transient encounter record held by `engine.Game`. -/
structure Encounter where
  monster_level : Nat
  monster_name : String
  vitality : Int
  deriving DecidableEq, Repr

/-- `engine._ShopState`. -/
structure ShopState where
  phase : String
  category : Option String := none
  awaiting_attribute : Bool := false
  deriving DecidableEq, Repr

/-- The state owned by `engine.Game`: the shared generator, the dungeon,
the player, the derived mode, and the transient sub-state. -/
structure GameState where
  rng : Rng
  dungeon : Grid
  player : Player
  mode : Mode
  encounter : Option Encounter
  awaiting_spell : Bool
  shop_state : Option ShopState

/-- `constants.EXPLORE_COMMANDS`. -/
def EXPLORE_COMMANDS : List Char :=
  ['N', 'S', 'E', 'W', 'U', 'D', 'F', 'X', 'L', 'O', 'R', 'P', 'B', 'H']

/-- `constants.ENCOUNTER_COMMANDS`. -/
def ENCOUNTER_COMMANDS : List Char := ['F', 'R', 'S']

/-! ## `encounter.py`: the encounter session

The session's optional debug narration (`_with_debug`, `Event.debug`) is
elided; it appends display-only events and touches no game state. -/

/-- `encounter.EncounterSession` state. -/
structure SessionState where
  rng : Rng
  player : Player
  monster_level : Nat
  monster_name : String
  vitality : Int
  awaiting_spell : Bool
  debug : Bool

/-- `encounter.EncounterResult`. -/
structure EncounterResult where
  events : List Event
  done : Bool := false
  defeated_monster : Bool := false
  relocate : Bool := false
  relocate_any_floor : Bool := false
  enter_room : Bool := false
  deriving Repr

/-- `encounter._reset_player_after_encounter`. -/
def reset_player_after_encounter (p : Player) : Player :=
  { p with fatigued := false, temp_armor_bonus := 0 }

/-- `math.floor(2.5 + level / 3)` of the session's retaliation formula,
as exact integer arithmetic: `(15 + 2 * level) / 6`. -/
def retaliation_base (level : Nat) : Int := ((15 + 2 * level) / 6 : Nat)

/-- `EncounterSession._monster_attack`. -/
def session_monster_attack (s : SessionState) :
    SessionState × EncounterResult :=
  let level := s.monster_level
  let dodge_score : Int := 20 + 5 * (11 - (level : Int)) + 2 * s.player.dex
  let (roll, r₁) := s.rng.randint 1 100
  if (roll : Int) ≤ dodge_score then
    ({ s with rng := r₁ }, { events := [.combat "You deftly dodge the blow!"] })
  else
    let armor := (s.player.armor_tier : Int) + s.player.temp_armor_bonus
    let (d, r₂) := r₁.randint 0 (level - 1)
    let damage := max ((d : Int) + retaliation_base level - armor) 0
    let hp' := s.player.hp - damage
    let name := s.monster_name
    let s' := { s with rng := r₂, player := { s.player with hp := hp' } }
    if hp' ≤ 0 then
      (s', { events := [.combat s!"The {name} hits you!", .info "YOU HAVE DIED."]
             done := true })
    else (s', { events := [.combat s!"The {name} hits you!"] })

/-- `EncounterSession._handle_monster_death`. -/
def session_handle_monster_death (s : SessionState) (events : List Event) :
    SessionState × EncounterResult :=
  let name := s.monster_name
  let ev₀ := events ++ [Event.combat s!"The foul {name} expires."]
  let (k, r₁) := s.rng.randFloat
  if 10 * k > 7 * floatDenom then
    let ev₁ := ev₀ ++
      [Event.combat "As he dies, though, he launches one final desperate attack."]
    let (s₁, atk) := session_monster_attack { s with rng := r₁ }
    if atk.done then
      ({ s₁ with monster_level := 0, monster_name := "", vitality := 0 },
        { events := ev₁ ++ atk.events, done := true, defeated_monster := true })
    else
      ({ s₁ with
         monster_level := 0
         monster_name := ""
         vitality := 0
         player := reset_player_after_encounter s₁.player },
        { events := ev₁ ++ atk.events, done := true, defeated_monster := true })
  else
    ({ s with
       rng := r₁
       monster_level := 0
       monster_name := ""
       vitality := 0
       player := reset_player_after_encounter s.player },
      { events := ev₀, done := true, defeated_monster := true })

/-- `EncounterSession._run_attempt`. -/
def session_run_attempt (s : SessionState) : SessionState × EncounterResult :=
  if s.player.fatigued then
    (s, { events := [.info "You are quite fatigued after your previous efforts."] })
  else
    let (k, r₁) := s.rng.randFloat
    if 5 * k < 2 * floatDenom then
      let name := s.monster_name
      ({ s with rng := r₁, player := reset_player_after_encounter s.player },
        { events :=
            [.info s!"You turn and flee, the vile {name} following close behind.",
              .info s!"Suddenly, you realize that the {name} is no longer following you."],
          done := true, relocate := true, relocate_any_floor := false,
          enter_room := true })
    else
      ({ s with rng := r₁, player := { s.player with fatigued := true } },
        { events :=
            [.info "Although you run your hardest, your efforts to escape are made in vain."] })

/-- The common tail of the session's `_cast_spell` for non-teleport
spells: check for monster death, else a monster counter-attack. -/
def session_after_spell (s : SessionState) (events : List Event) :
    SessionState × EncounterResult :=
  if s.vitality ≤ 0 then session_handle_monster_death s events
  else
    let (s₁, atk) := session_monster_attack s
    (s₁, { events := events ++ atk.events, done := atk.done })

/-- `EncounterSession._cast_spell`. -/
def session_cast_spell (s : SessionState) (spell : Spell) :
    SessionState × EncounterResult :=
  match spell with
  | .PROTECTION =>
    let s₁ := { s with player :=
      { s.player with temp_armor_bonus := s.player.temp_armor_bonus + 3 } }
    let ev :=
      if s.player.armor_tier > 0 then
        [Event.info "Your armour glows briefly in response to your spell."]
      else
        [Event.info "Your clothes glow briefly, becoming, temporarily, armour."]
    session_after_spell s₁ ev
  | .FIREBALL =>
    let (roll, r₁) := s.rng.randint 1 5
    let damage := (roll : Int) + Int.fdiv s.player.iq 3
    let name := s.monster_name
    let s₁ := { s with rng := r₁, vitality := s.vitality - damage }
    session_after_spell s₁
      [.combat s!"A glowing ball of fire converges with the {name}."]
  | .LIGHTNING =>
    let (roll, r₁) := s.rng.randint 1 10
    let damage := (roll : Int) + Int.fdiv s.player.iq 2
    let name := s.monster_name
    let s₁ := { s with rng := r₁, vitality := s.vitality - damage }
    session_after_spell s₁ [.combat s!"The {name} is thunderstruck!"]
  | .WEAKEN =>
    let name := s.monster_name
    let s₁ := { s with vitality := Int.fdiv s.vitality 2 }
    session_after_spell s₁
      [.combat s!"A green mist envelops the {name}, depriving him of half his vitality."]
  | .TELEPORT =>
    ({ s with
       monster_level := 0
       monster_name := ""
       vitality := 0
       player := reset_player_after_encounter s.player },
      { events :=
          [.info "Thy surroundings vibrate momentarily, as you are magically transported elsewhere..."]
        done := true, relocate := true, relocate_any_floor := false
        enter_room := true })

/-- The session's spell-letter map (`_handle_spell_choice`). -/
def session_spell_map (c : String) : Option Spell :=
  if c = "P" then some .PROTECTION
  else if c = "F" then some .FIREBALL
  else if c = "L" then some .LIGHTNING
  else if c = "W" then some .WEAKEN
  else if c = "T" then some .TELEPORT
  else none

/-- `EncounterSession._handle_spell_choice`. -/
def session_handle_spell_choice (s : SessionState) (raw : String) :
    SessionState × EncounterResult :=
  let s := { s with awaiting_spell := false }
  match session_spell_map (raw.take 1) with
  | none => (s, { events := [.error "Choose P/F/L/W/T or Esc to cancel."] })
  | some spell =>
    let charges := s.player.spells spell
    if s.player.iq < 12 then
      (s, { events := [.info "You have insufficient intelligence."] })
    else if charges ≤ 0 then
      (s, { events := [.info "You know not that spell."] })
    else
      let s₁ := { s with player := { s.player with
        spells := fun sp => if sp = spell then charges - 1 else s.player.spells sp } }
      session_cast_spell s₁ spell

/-! ## `vendor.py`: the vendor session -/

/-- `vendor.VendorSession` state. -/
structure VendorState where
  rng : Rng
  player : Player
  phase : String
  category : Option String

/-- `vendor.VendorResult`. -/
structure VendorResult where
  events : List Event
  done : Bool := false
  deriving Repr

/-- `vendor._race_label`. -/
def race_label : Race → String
  | .HUMAN => "Human" | .DWARF => "Dwarf" | .ELF => "Elf"
  | .HALFLING => "Halfling"

/-- `VendorSession._insufficient_gold_message`. -/
def vendor_insufficient_gold_message (p : Player) : Event :=
  let label := race_label p.race
  .info s!"Don't try to cheat me, you foolish {label}. It won't work!"

/-- The weapon-letter tier map of `VendorSession._handle_shop_weapons`. -/
def vendor_weapon_tier (raw : String) : Option Nat :=
  if raw = "D" then some 1
  else if raw = "S" then some 2
  else if raw = "B" then some 3
  else none

/-- The armor-letter tier map of `VendorSession._handle_shop_armor`. -/
def vendor_armor_tier (raw : String) : Option Nat :=
  if raw = "L" then some 1
  else if raw = "W" then some 2
  else if raw = "C" then some 3
  else none

/-- `VendorSession._handle_shop_weapons`: the purchase sets the tier
unconditionally, clears the broken flag, and deducts the price. -/
def vendor_handle_shop_weapons (s : VendorState) (raw : String) :
    VendorState × VendorResult :=
  match vendor_weapon_tier raw with
  | none => (s, { events := [.error "Choose D/S/B.", .promptE "Choose a weapon:"] })
  | some tier =>
    let price := tier_price tier
    if s.player.gold < price then
      (s, { events := [vendor_insufficient_gold_message s.player,
        .promptE "Choose a weapon:"] })
    else
      ({ s with player := { s.player with
          weapon_tier := tier
          weapon_name := WEAPON_NAMES.getD tier ""
          weapon_broken := false
          gold := s.player.gold - price } },
        { events := [.info "A fine weapon for your quest."], done := true })

/-- `VendorSession._handle_shop_armor`. -/
def vendor_handle_shop_armor (s : VendorState) (raw : String) :
    VendorState × VendorResult :=
  match vendor_armor_tier raw with
  | none => (s, { events := [.error "Choose L/W/C.", .promptE "Choose armor:"] })
  | some tier =>
    let price := tier_price tier
    if s.player.gold < price then
      (s, { events := [vendor_insufficient_gold_message s.player,
        .promptE "Choose armor:"] })
    else
      ({ s with player := { s.player with
          armor_tier := tier
          armor_name := ARMOR_NAMES.getD tier ""
          armor_damaged := false
          gold := s.player.gold - price } },
        { events := [.info "Armor fitted and ready."], done := true })

/-! ## `engine.py`: the game orchestrator -/

/-- `engine.Game._treasure_name`. -/
def treasure_name (tid : Nat) : String := TREASURE_NAMES.getD (tid - 1) ""

/-- `engine.Game._award_treasure`: idempotent on already-found ids. -/
def award_treasure (p : Player) (tid : Nat) : Player × List Event :=
  if tid ∈ p.treasures_found then (p, [])
  else
    let tname := treasure_name tid
    ({ p with treasures_found := insert tid p.treasures_found },
      [.loot s!"You find the {tname}!"])

/-- `engine.Game._current_room`. -/
def current_room (st : GameState) : Room :=
  st.dungeon st.player.z st.player.y st.player.x

/-- The `while True` loop of `engine.Game._random_relocate`: redraw until
the drawn `(row, column)` differs from the player's current one. -/
def relocate_loop : Nat → GameState → Option GameState
  | 0, _ => none
  | fuel + 1, st =>
    let (ny, r₁) := st.rng.randint 0 6
    let (nx, r₂) := r₁.randint 0 6
    if ny = st.player.y ∧ nx = st.player.x then
      relocate_loop fuel { st with rng := r₂ }
    else
      some { st with
        rng := r₂
        player := { st.player with y := ny, x := nx } }

/-- `engine.Game._random_relocate`: with `any_floor`, first redraw the
floor, then redraw row and column until they differ from the current
pair. -/
def random_relocate (any_floor : Bool) (fuel : Nat) (st : GameState) :
    Option GameState :=
  if any_floor then
    let (nz, r₁) := st.rng.randint 0 6
    relocate_loop fuel
      { st with rng := r₁, player := { st.player with z := nz } }
  else relocate_loop fuel st

/-- `engine.Game._start_encounter`. -/
def start_encounter (st : GameState) (level : Nat) : GameState × String :=
  let name := MONSTER_NAMES.getD (level - 1) ""
  let (v, r₁) := st.rng.randint 0 3
  let vitality : Int := 3 * level + v
  ({ st with
      rng := r₁
      encounter := some ⟨level, name, vitality⟩
      player := { st.player with fatigued := false, temp_armor_bonus := 0 } },
    name)

/-- `engine.Game._enter_room`, with fuel bounding the warp recursion.
Marks the room seen; a live monster starts an encounter; otherwise any
treasure is awarded and the feature resolves, with Warp relocating to a
random room on a random floor and recursively re-entering. -/
def enter_room : Nat → GameState → Option (GameState × List Event)
  | 0, _ => none
  | fuel + 1, st₀ =>
    let pz := st₀.player.z
    let py := st₀.player.y
    let px := st₀.player.x
    let room₁ := { st₀.dungeon pz py px with seen := true }
    let st := { st₀ with dungeon := setRoom st₀.dungeon pz py px room₁ }
    if room₁.monster_level > 0 then
      let (st₁, name) := start_encounter st room₁.monster_level
      some ({ st₁ with mode := .ENCOUNTER },
        [.combat s!"You are facing an angry {name}!",
          .info "Encounter mode: F=Fight  R=Run  S=Spell"])
    else
      let withT :=
        if room₁.treasure_id ≠ 0 then
          let (p', ev) := award_treasure st.player room₁.treasure_id
          ({ st with
              player := p'
              dungeon := setRoom st.dungeon pz py px
                  { room₁ with treasure_id := 0 } }, ev)
        else (st, ([] : List Event))
      let st := withT.1
      let events := withT.2
      let roomT := { room₁ with treasure_id := 0 }
      match room₁.feature with
      | .MIRROR =>
        some (st, events ++
          [.info "There is a magic mirror mounted on the wall here."])
      | .SCROLL => some (st, events ++ [.info "There is a spell scroll here."])
      | .CHEST => some (st, events ++ [.info "There is a chest here."])
      | .FLARES =>
        let (gained, r₁) := st.rng.randint 1 5
        some ({ st with
            rng := r₁
            player := { st.player with flares := st.player.flares + gained }
            dungeon := setRoom st.dungeon pz py px
                { roomT with feature := .EMPTY } },
          events ++ [.info s!"You pick up {gained} flares."])
      | .POTION => some (st, events ++ [.info "There is a magic potion here."])
      | .VENDOR => some (st, events ++ [.info "There is a vendor here."])
      | .THIEF =>
        let (amt, r₁) := st.rng.randint 1 50
        let stolen := min (amt : Int) st.player.gold
        some ({ st with
            rng := r₁
            player := { st.player with gold := st.player.gold - stolen }
            dungeon := setRoom st.dungeon pz py px
                { roomT with feature := .EMPTY } },
          events ++ [.info s!"A thief steals {stolen} gold pieces."])
      | .WARP =>
        let events := events ++
          [Event.info "This room contains a warp. You are whisked elsewhere..."]
        match random_relocate true (fuel + 1) st with
        | none => none
        | some st₁ =>
          (enter_room fuel st₁).map fun p => (p.1, events ++ p.2)
      | .STAIRS_UP => some (st, events ++ [.info "There are stairs up here."])
      | .STAIRS_DOWN =>
        some (st, events ++ [.info "There are stairs down here."])
      | .EXIT =>
        some (st, events ++
          [.info "You see the exit to the Dungeon of Doom here."])
      | .EMPTY => some (st, events ++ [.info "This room is empty."])

/-- `engine.Game._move`. -/
def move (fuel : Nat) (st : GameState) (dy dx : Int) :
    Option (GameState × List Event) :=
  let ny : Int := st.player.y + dy
  let nx : Int := st.player.x + dx
  if ny < 0 ∨ ny > 6 ∨ nx < 0 ∨ nx > 6 then
    some (st, [.info "A wall interposes itself."])
  else
    enter_room fuel
      { st with player := { st.player with y := ny.toNat, x := nx.toNat } }

/-- `engine.Game._stairs_up` (note: the source moves to floor `z + 1`). -/
def stairs_up (fuel : Nat) (st : GameState) :
    Option (GameState × List Event) :=
  if (current_room st).feature ≠ .STAIRS_UP then
    some (st, [.info "There are no stairs leading up here, foolish adventurer."])
  else
    enter_room fuel { st with player := { st.player with z := st.player.z + 1 } }

/-- `engine.Game._stairs_down` (moves to floor `z - 1`; a generated
dungeon never has a stairs-down on floor 0, where the Python `z -= 1`
would go negative). -/
def stairs_down (fuel : Nat) (st : GameState) :
    Option (GameState × List Event) :=
  if (current_room st).feature ≠ .STAIRS_DOWN then
    some (st, [.info "There is no downward staircase here."])
  else
    enter_room fuel { st with player := { st.player with z := st.player.z - 1 } }

/-- `engine.Game._attempt_exit`. -/
def attempt_exit (st : GameState) : GameState × List Event :=
  if (current_room st).feature ≠ .EXIT then
    (st, [.info "There is no exit here."])
  else if st.player.treasures_found.card < 10 then
    let remaining := 10 - st.player.treasures_found.card
    ({ st with mode := .GAME_OVER },
      [.info s!"You abandon your quest with {remaining} treasures remaining."])
  else ({ st with mode := .VICTORY }, [.info "ALL HAIL THE VICTOR!"])

/-- The neighbour-marking of `engine.Game._use_flare`: the 8 rooms around
`(y, x)` on floor `z`, clipped at the grid edges, become seen. -/
def illuminate (g : Grid) (z y x : Nat) : Grid :=
  fun z' y' x' =>
    if z' = z ∧ y' ≤ y + 1 ∧ y ≤ y' + 1 ∧ x' ≤ x + 1 ∧ x ≤ x' + 1 ∧
        ¬(y' = y ∧ x' = x) ∧ y' < 7 ∧ x' < 7 then
      { g z' y' x' with seen := true }
    else g z' y' x'

/-- `engine.Game._use_flare`. -/
def use_flare (st : GameState) : GameState × List Event :=
  if st.player.flares < 1 then (st, [.info "Thou hast no flares."])
  else
    ({ st with
        player := { st.player with flares := st.player.flares - 1 }
        dungeon := illuminate st.dungeon st.player.z st.player.y st.player.x },
      [.info "The flare illuminates nearby rooms.", .mapE])

/-- `engine.Game._help_text`. -/
def help_text : String :=
  "COMMAND SUMMARY:\nL=Look at a mirror  O=Open a chest   F=use a Flare  P=Drink a potion\nR=Read a scroll     T=Status report  H=Help         M=Map\nX=eXit              U=Up             D=Down         N=North\nS=South             E=East           W=West         B=Buy\n\nEncounter: F=Fight  R=Run  S=Spell\n\nMAP MEANINGS:\n0=Empty  m=Mirror  s=Scroll  c=Chest  f=Flares  p=Potion\nv=Vendor  t=Thief  w=Warp  U=Up  D=Down  X=eXit\nT=Treasure  M=Monster  *=You  ?=Unknown"

/-- The flavour visions of `engine.Game._use_mirror`. -/
def mirror_visions : List String :=
  ["The mirror is cloudy and yields no vision.",
    "You see yourself dead and lying in a black coffin.",
    "You see a dragon beckoning to you.",
    "You see the three heads of a chimaera grinning at you.",
    "You see the exit on the 7th floor, big and friendly-looking."]

/-- The undiscovered-treasure location list of `engine.Game._use_mirror`,
in the comprehension's `z, y, x` order. -/
def mirror_locations (st : GameState) : List (Nat × Nat × Nat × Nat) :=
  (List.range 7).flatMap fun z =>
    (List.range 7).flatMap fun y =>
      (List.range 7).filterMap fun x =>
        let room := st.dungeon z y x
        if room.treasure_id ≠ 0 ∧ room.treasure_id ∉ st.player.treasures_found
        then some (room.treasure_id, z, y, x) else none

/-- `engine.Game._use_mirror`. -/
def use_mirror (st : GameState) : GameState × List Event :=
  if (current_room st).feature ≠ .MIRROR then
    (st, [.info "There is no mirror here."])
  else
    let (roll, r₁) := st.rng.randint 1 50
    if (roll : Int) > st.player.iq then
      let (v10, r₂) := r₁.randint 1 10
      if v10 ≤ 5 then
        let (vision, r₃) := r₂.choice mirror_visions
        ({ st with rng := r₃ }, [.info vision])
      else
        let (t, r₃) := r₂.randint 1 10
        let (tx, r₄) := r₃.randint 1 7
        let (ty, r₅) := r₄.randint 1 7
        let (tz, r₆) := r₅.randint 1 7
        let tname := treasure_name t
        ({ st with rng := r₆ }, [.info s!"You see the {tname} at {tz},{ty},{tx}!"])
    else
      let locations := mirror_locations st
      if locations = [] then
        ({ st with rng := r₁ },
          [.info "The mirror is cloudy and yields no vision."])
      else
        let (loc, r₂) := r₁.choice locations
        let tname := treasure_name loc.1
        let z1 := loc.2.1 + 1
        let y1 := loc.2.2.1 + 1
        let x1 := loc.2.2.2 + 1
        ({ st with rng := r₂ }, [.info s!"You see the {tname} at {z1},{y1},{x1}!"])

/-- `engine.Game._open_chest`. -/
def open_chest (st : GameState) : GameState × List Event :=
  if (current_room st).feature ≠ .CHEST then
    (st, [.info "There is no chest here."])
  else
    let st := { st with
      dungeon := setRoom st.dungeon st.player.z st.player.y st.player.x
          { current_room st with feature := .EMPTY } }
    let (roll, r₁) := st.rng.randint 1 5
    if roll = 1 then
      let tier := st.player.armor_tier - 1
      ({ st with
          rng := r₁
          player := { st.player with
            armor_tier := tier
            armor_name := ARMOR_NAMES.getD tier "" } },
        [.info "The perverse thing explodes, damaging your armor!"])
    else if roll = 2 then
      ({ st with rng := r₁ }, [.info "It containeth naught."])
    else
      let (gv, r₂) := r₁.randint 0 20
      let gold : Int := 10 + gv
      ({ st with
          rng := r₂
          player := { st.player with gold := st.player.gold + gold } },
        [.info s!"You find {gold} gold pieces!"])

/-- `engine.Game._read_scroll`. -/
def read_scroll (st : GameState) : GameState × List Event :=
  if (current_room st).feature ≠ .SCROLL then
    (st, [.info "Sorry. There is nothing to read here."])
  else
    let st := { st with
      dungeon := setRoom st.dungeon st.player.z st.player.y st.player.x
          { current_room st with feature := .EMPTY } }
    let (n, r₁) := st.rng.randint 1 5
    let spell := spellOfNat n
    let sname := spell_name_lower spell
    ({ st with
        rng := r₁
        player := { st.player with
          spells := fun sp => if sp = spell then st.player.spells sp + 1
            else st.player.spells sp } },
      [.info s!"The scroll contains the {sname} spell."])

/-- `engine.Game._drink_potion`. -/
def drink_potion (st : GameState) : GameState × List Event :=
  if (current_room st).feature ≠ .POTION then
    (st, [.info "There is no potion here, I fear."])
  else
    let st := { st with
      dungeon := setRoom st.dungeon st.player.z st.player.y st.player.x
          { current_room st with feature := .EMPTY } }
    let (roll, r₁) := st.rng.randint 1 5
    if roll = 1 then
      let (h, r₂) := r₁.randint 1 10
      let heal : Int := 5 + h
      ({ st with
          rng := r₂
          player := { st.player with
            hp := min st.player.mhp (st.player.hp + heal) } },
        [.info "You drink the potion... healing results."])
    else
      let (change, r₂) := r₁.randint 1 6
      let (effect, r₃) := r₂.choice ["STR", "DEX", "IQ", "MHP"]
      let (p', r₄) := engine_apply_attribute_change st.player r₃ effect change true
      ({ st with rng := r₄, player := p' },
        [.info "You drink the potion... strange energies surge through you."])

/-- `engine.Game._open_vendor`. -/
def open_vendor (st : GameState) : GameState × List Event :=
  if (current_room st).feature ≠ .VENDOR then
    (st, [.info "There is no vendor here."])
  else
    ({ st with shop_state := some { phase := "category" } },
      [.promptE "He is selling: 1> Weapons  2> Armour  3> Scrolls  4> Potions  0> Leave"])

/-- `engine.Game._handle_shop_category`. -/
def handle_shop_category (st : GameState) (raw : String) :
    GameState × List Event :=
  if raw = "0" then
    ({ st with shop_state := none }, [.info "Perhaps another time."])
  else if raw = "1" ∨ raw = "2" ∨ raw = "3" ∨ raw = "4" then
    let text :=
      if raw = "1" then "Weapons: 1> Dagger  2> Short sword  3> Broadsword  0> Leave"
      else if raw = "2" then "Armour: 1> Leather  2> Wooden  3> Chain mail  0> Leave"
      else if raw = "3" then
        "Scrolls: 1> Protection  2> Fireball  3> Lightning  4> Weaken  5> Teleport  0> Leave"
      else "Potions: 1> Healing  2> Attribute enhancer  0> Leave"
    ({ st with shop_state := some { phase := "item", category := some raw } },
      [.promptE text])
  else (st, [.error "Choose 1..4."])

/-- `engine.Game._handle_shop_weapons`. -/
def engine_handle_shop_weapons (st : GameState) (raw : String) :
    GameState × List Event :=
  if raw = "1" ∨ raw = "2" ∨ raw = "3" then
    let tier := if raw = "1" then 1 else if raw = "2" then 2 else 3
    let price := tier_price tier
    if st.player.gold < price then
      (st, [.info "Don't try to cheat me. It won't work!"])
    else
      let p₁ :=
        if tier > st.player.weapon_tier then
          { st.player with
            weapon_tier := tier
            weapon_name := WEAPON_NAMES.getD tier "" }
        else st.player
      ({ st with
          player := { p₁ with gold := p₁.gold - price }
          shop_state := none },
        [.info "A fine weapon for your quest."])
  else (st, [.error "Choose 1..3."])

/-- `engine.Game._handle_shop_armor`. -/
def engine_handle_shop_armor (st : GameState) (raw : String) :
    GameState × List Event :=
  if raw = "1" ∨ raw = "2" ∨ raw = "3" then
    let tier := if raw = "1" then 1 else if raw = "2" then 2 else 3
    let price := tier_price tier
    if st.player.gold < price then
      (st, [.info "Don't try to cheat me. It won't work!"])
    else
      let p₁ :=
        if tier > st.player.armor_tier then
          { st.player with
            armor_tier := tier
            armor_name := ARMOR_NAMES.getD tier "" }
        else st.player
      ({ st with
          player := { p₁ with gold := p₁.gold - price }
          shop_state := none },
        [.info "Armor fitted and ready."])
  else (st, [.error "Choose 1..3."])

/-- `engine.Game._handle_shop_scrolls`. -/
def engine_handle_shop_scrolls (st : GameState) (raw : String) :
    GameState × List Event :=
  if raw = "1" ∨ raw = "2" ∨ raw = "3" ∨ raw = "4" ∨ raw = "5" then
    let spell := spellOfNat (if raw = "1" then 1 else if raw = "2" then 2
      else if raw = "3" then 3 else if raw = "4" then 4 else 5)
    let price := spell_price spell
    if st.player.gold < price then
      (st, [.info "Don't try to cheat me. It won't work!"])
    else
      ({ st with
          player := { st.player with
            gold := st.player.gold - price
            spells := fun sp => if sp = spell then st.player.spells sp + 1
              else st.player.spells sp }
          shop_state := none },
        [.info "A scroll is yours."])
  else (st, [.error "Choose 1..5."])

/-- `engine.Game._handle_shop_potions`. -/
def engine_handle_shop_potions (st : GameState) (raw : String) :
    GameState × List Event :=
  if raw = "1" then
    if st.player.gold < healing_potion_price then
      (st, [.info "Don't try to cheat me. It won't work!"])
    else
      ({ st with
          player := { st.player with
            gold := st.player.gold - healing_potion_price
            hp := min st.player.mhp (st.player.hp + 10) }
          shop_state := none },
        [.info "You quaff a healing potion."])
  else if raw = "2" then
    if st.player.gold < attribute_potion_price then
      (st, [.info "Don't try to cheat me. It won't work!"])
    else
      ({ st with shop_state := (st.shop_state.getD { phase := "category" })
          |> fun s => some { s with phase := "attribute" } },
        [.promptE "Attribute enhancer: 1> Strength  2> Dexterity  3> Intelligence  4> Max HP  0> Leave"])
  else (st, [.error "Choose 1 or 2."])

/-- `engine.Game._handle_shop_attribute`. -/
def engine_handle_shop_attribute (st : GameState) (raw : String) :
    GameState × List Event :=
  if raw = "0" then
    ({ st with shop_state := none }, [.info "Perhaps another time."])
  else if raw = "1" ∨ raw = "2" ∨ raw = "3" ∨ raw = "4" then
    if st.player.gold < attribute_potion_price then
      ({ st with shop_state := none },
        [.info "Don't try to cheat me. It won't work!"])
    else
      let target := if raw = "1" then "STR" else if raw = "2" then "DEX"
        else if raw = "3" then "IQ" else "MHP"
      let (change, r₁) := st.rng.randint 1 6
      let (p', r₂) := engine_apply_attribute_change
        { st.player with gold := st.player.gold - attribute_potion_price }
        r₁ target change false
      ({ st with rng := r₂, player := p', shop_state := none },
        [.info "The potion takes effect."])
  else (st, [.error "Choose 1..4."])

/-- `engine.Game._handle_shop_item_choice`. -/
def handle_shop_item_choice (st : GameState) (raw : String) :
    GameState × List Event :=
  match st.shop_state with
  | none => (st, [])
  | some state =>
    if state.category = some "1" then engine_handle_shop_weapons st raw
    else if state.category = some "2" then engine_handle_shop_armor st raw
    else if state.category = some "3" then engine_handle_shop_scrolls st raw
    else if state.category = some "4" then engine_handle_shop_potions st raw
    else (st, [.error "Choose 1..4."])

/-- `engine.Game._handle_shop_item`. -/
def handle_shop_item (st : GameState) (raw : String) :
    GameState × List Event :=
  if raw = "0" then
    ({ st with shop_state := none }, [.info "Perhaps another time."])
  else if raw = "1" ∨ raw = "2" ∨ raw = "3" ∨ raw = "4" ∨ raw = "5" then
    handle_shop_item_choice st raw
  else (st, [.error "Choose 1..5."])

/-- `engine.Game._handle_shop`. -/
def handle_shop (st : GameState) (raw : String) : GameState × List Event :=
  match st.shop_state with
  | none => (st, [])
  | some state =>
    if state.phase = "category" then handle_shop_category st raw
    else if state.phase = "item" then handle_shop_item st raw
    else if state.phase = "attribute" then engine_handle_shop_attribute st raw
    else (st, [])

/-- `engine.Game._monster_attack`. -/
def monster_attack (st : GameState) : GameState × List Event :=
  match st.encounter with
  | none => (st, [])
  | some enc =>
    let level := enc.monster_level
    let dodge_score : Int := 20 + 5 * (11 - (level : Int)) + 2 * st.player.dex
    let (roll, r₁) := st.rng.randint 1 100
    if (roll : Int) ≤ dodge_score then
      ({ st with rng := r₁ }, [.combat "You deftly dodge the blow!"])
    else
      let armor := (st.player.armor_tier : Int) + st.player.temp_armor_bonus
      let (d, r₂) := r₁.randint 0 (level - 1)
      let damage := max ((d : Int) + 3 - armor) 0
      let hp' := st.player.hp - damage
      let name := enc.monster_name
      let st' := { st with rng := r₂, player := { st.player with hp := hp' } }
      if hp' ≤ 0 then
        ({ st' with mode := .GAME_OVER },
          [.combat s!"The {name} hits you!", .info "YOU HAVE DIED."])
      else (st', [.combat s!"The {name} hits you!"])

/-- `engine.Game._handle_monster_death`: narrate, 30% final desperate
attack, then loot (treasure if the room holds one, else gold), clear the
room's monster and close the encounter, setting the mode to Explore. -/
def handle_monster_death (st : GameState) : GameState × List Event :=
  match st.encounter with
  | none => (st, [])
  | some enc =>
    let name := enc.monster_name
    let ev₀ := [Event.combat s!"The foul {name} expires."]
    let (k, r₁) := st.rng.randFloat
    let withAtk :=
      if 10 * k > 7 * floatDenom then
        let p := monster_attack { st with rng := r₁ }
        (p.1, ev₀ ++
          [Event.combat "As it dies, it launches one final desperate attack."]
          ++ p.2)
      else ({ st with rng := r₁ }, ev₀)
    let st₁ := withAtk.1
    let ev₁ := withAtk.2
    let pz := st₁.player.z
    let py := st₁.player.y
    let px := st₁.player.x
    let room := st₁.dungeon pz py px
    let withLoot :=
      if room.treasure_id ≠ 0 then
        let (p', evT) := award_treasure st₁.player room.treasure_id
        ({ st₁ with
            player := p'
            dungeon := setRoom st₁.dungeon pz py px
                { room with treasure_id := 0 } }, evT)
      else
        let (gv, r₂) := st₁.rng.randint 0 20
        let gold : Int := 5 * enc.monster_level + gv
        ({ st₁ with
            rng := r₂
            player := { st₁.player with gold := st₁.player.gold + gold } },
          [Event.loot s!"You found {gold} gold pieces."])
    let st₂ := withLoot.1
    let room₂ := st₂.dungeon pz py px
    ({ st₂ with
        dungeon := setRoom st₂.dungeon pz py px
            { room₂ with monster_level := 0 }
        encounter := none
        mode := .EXPLORE },
      ev₁ ++ withLoot.2)

/-- `engine.Game._fight_round`. -/
def fight_round (st : GameState) : GameState × List Event :=
  match st.encounter with
  | none => (st, [])
  | some enc =>
    let level := enc.monster_level
    let name := enc.monster_name
    let attack_score : Int :=
      20 + 5 * (11 - (level : Int)) + st.player.dex + 3 * st.player.weapon_tier
    let (roll, r₁) := st.rng.randint 1 100
    if (roll : Int) > attack_score then
      let p := monster_attack { st with rng := r₁ }
      (p.1, [.combat s!"The {name} evades your blow!"] ++ p.2)
    else
      let (d, r₂) := r₁.randint 0 4
      let damage :=
        max ((st.player.weapon_tier : Int) + Int.fdiv st.player.str_ 3 + d - 2) 1
      let vit' := enc.vitality - damage
      let st₁ := { st with rng := r₂, encounter := some { enc with vitality := vit' } }
      if vit' ≤ 0 then
        let p := handle_monster_death st₁
        (p.1, [.combat s!"You hit the {name}!"] ++ p.2)
      else
        let (k, r₃) := st₁.rng.randFloat
        let withBreak :=
          if 20 * k < floatDenom ∧ st.player.weapon_tier > 0 then
            ({ st₁ with
                rng := r₃
                player := { st₁.player with
                  weapon_tier := 0
                  weapon_name := "~~broken" } },
              [Event.info "Your weapon breaks with the impact!"])
          else ({ st₁ with rng := r₃ }, ([] : List Event))
        let p := monster_attack withBreak.1
        (p.1, [.combat s!"You hit the {name}!"] ++ withBreak.2 ++ p.2)

/-- `engine.Game._run_attempt`. -/
def run_attempt (fuel : Nat) (st : GameState) :
    Option (GameState × List Event) :=
  match st.encounter with
  | none => some (st, [])
  | some _ =>
    if st.player.fatigued then
      some (st, [.info "You are quite fatigued after your previous efforts."])
    else
      let (k, r₁) := st.rng.randFloat
      if 5 * k < 2 * floatDenom then
        let st₁ := { st with rng := r₁, encounter := none, mode := .EXPLORE }
        match random_relocate false fuel st₁ with
        | none => none
        | some st₂ =>
          (enter_room fuel st₂).map fun p =>
            (p.1, [Event.info "You slip away and the monster no longer follows."]
              ++ p.2)
      else
        some ({ st with
            rng := r₁
            player := { st.player with fatigued := true } },
          [.info "Although you run your hardest, your efforts to escape are made in vain."])

/-- `engine.Game._cast_spell`: note that Fireball and Lightning damage
subtract the intelligence term (`max(roll - iq // n, 0)`) in this
revision. -/
def cast_spell (fuel : Nat) (st : GameState) (spell : Spell) :
    Option (GameState × List Event) :=
  match st.encounter with
  | none => some (st, [])
  | some enc =>
    let name := enc.monster_name
    match spell with
    | .PROTECTION =>
      let st₁ := { st with player := { st.player with
        temp_armor_bonus := st.player.temp_armor_bonus + 3 } }
      let p := monster_attack st₁
      some (p.1, [.info "Your armor glows briefly in response to your spell."]
        ++ p.2)
    | .FIREBALL =>
      let (d, r₁) := st.rng.randint 1 5
      let damage := max ((d : Int) - Int.fdiv st.player.iq 3) 0
      let vit' := enc.vitality - damage
      let st₁ := { st with
        rng := r₁
        encounter := some { enc with vitality := vit' } }
      let ev₀ := [Event.combat s!"A ball of fire scorches the {name}."]
      if vit' ≤ 0 then
        let p := handle_monster_death st₁
        some (p.1, ev₀ ++ p.2)
      else
        let p := monster_attack st₁
        some (p.1, ev₀ ++ p.2)
    | .LIGHTNING =>
      let (d, r₁) := st.rng.randint 1 10
      let damage := max ((d : Int) - Int.fdiv st.player.iq 2) 0
      let vit' := enc.vitality - damage
      let st₁ := { st with
        rng := r₁
        encounter := some { enc with vitality := vit' } }
      let ev₀ := [Event.combat s!"The {name} is thunderstruck!"]
      if vit' ≤ 0 then
        let p := handle_monster_death st₁
        some (p.1, ev₀ ++ p.2)
      else
        let p := monster_attack st₁
        some (p.1, ev₀ ++ p.2)
    | .WEAKEN =>
      let vit' := Int.fdiv enc.vitality 2
      let st₁ := { st with encounter := some { enc with vitality := vit' } }
      let ev₀ := [Event.combat "A green mist envelops your foe."]
      if vit' ≤ 0 then
        let p := handle_monster_death st₁
        some (p.1, ev₀ ++ p.2)
      else
        let p := monster_attack st₁
        some (p.1, ev₀ ++ p.2)
    | .TELEPORT =>
      let st₁ := { st with encounter := none, mode := .EXPLORE }
      match random_relocate false fuel st₁ with
      | none => none
      | some st₂ =>
        (enter_room fuel st₂).map fun p =>
          (p.1, [Event.info "Thy surroundings vibrate as you are transported elsewhere..."]
            ++ p.2)

/-- The numeric spell choice map of `engine.Game._handle_spell_choice`. -/
def spell_from_choice (raw : String) : Option Spell :=
  if raw = "1" then some .PROTECTION
  else if raw = "2" then some .FIREBALL
  else if raw = "3" then some .LIGHTNING
  else if raw = "4" then some .WEAKEN
  else if raw = "5" then some .TELEPORT
  else none

/-- `engine.Game._handle_spell_choice`. -/
def handle_spell_choice (fuel : Nat) (st : GameState) (raw : String) :
    Option (GameState × List Event) :=
  let st := { st with awaiting_spell := false }
  match spell_from_choice raw with
  | none => some (st, [.error "Choose 1..5."])
  | some spell =>
    let charges := st.player.spells spell
    if st.player.iq < 12 then
      some (st, [.info "You have insufficient intelligence."])
    else if charges ≤ 0 then
      some (st, [.info "You know not that spell."])
    else
      let st₁ := { st with player := { st.player with
        spells := fun sp => if sp = spell then charges - 1
          else st.player.spells sp } }
      cast_spell fuel st₁ spell

/-- `engine.Game._handle_explore`. -/
def handle_explore (fuel : Nat) (st : GameState) (key : Char) :
    Option (GameState × List Event) :=
  match key with
  | 'N' => move fuel st (-1) 0
  | 'S' => move fuel st 1 0
  | 'E' => move fuel st 0 1
  | 'W' => move fuel st 0 (-1)
  | 'U' => stairs_up fuel st
  | 'D' => stairs_down fuel st
  | 'M' => some (st, [.mapE])
  | 'F' => some (use_flare st)
  | 'X' => some (attempt_exit st)
  | 'L' => some (use_mirror st)
  | 'O' => some (open_chest st)
  | 'R' => some (read_scroll st)
  | 'P' => some (drink_potion st)
  | 'B' => some (open_vendor st)
  | 'T' => some (st, [.statusE])
  | 'H' => some (st, [.info help_text])
  | _ => some (st, [])

/-- `engine.Game._handle_encounter`. -/
def handle_encounter (fuel : Nat) (st : GameState) (key : Char) :
    Option (GameState × List Event) :=
  match st.encounter with
  | none =>
    some ({ st with mode := .EXPLORE }, [.error "There is nothing to fight."])
  | some _ =>
    match key with
    | 'F' => some (fight_round st)
    | 'R' => run_attempt fuel st
    | 'S' =>
      some ({ st with awaiting_spell := true }, [.promptE "Choose a spell:"])
    | _ => some (st, [])

/-- `command.strip().upper()`, carried out on the character list
(`String.trim`/`String.toUpper` contain kernel-opaque internals). -/
def normalize_command (command : String) : String :=
  String.mk ((((command.toList.dropWhile Char.isWhitespace).reverse.dropWhile
    Char.isWhitespace).reverse).map Char.toUpper)

/-- `engine.Game.step`: normalise the command, ignore input in terminal
modes, route to the shop, the pending spell choice, or the mode handler;
a first character outside the mode's alphabet is rejected with an
"I don't understand that." error and no state change. -/
def step (fuel : Nat) (st : GameState) (command : String) :
    Option (GameState × StepResult) :=
  let raw := normalize_command command
  if raw = "" then
    some (st, { events := [.error "I don't understand that."]
                mode := st.mode, needs_input := true })
  else if st.mode = .GAME_OVER ∨ st.mode = .VICTORY then
    some (st, { events := [], mode := st.mode, needs_input := false })
  else if st.shop_state.isSome then
    let p := handle_shop st raw
    some (p.1, { events := p.2, mode := p.1.mode, needs_input := true })
  else if st.awaiting_spell then
    (handle_spell_choice fuel st raw).map fun p =>
      (p.1, { events := p.2, mode := p.1.mode, needs_input := true })
  else
    match raw.toList with
    | [] =>
      some (st, { events := [.error "I don't understand that."]
                  mode := st.mode, needs_input := true })
    | key :: _ =>
      match st.mode with
      | .EXPLORE =>
        if key ∉ EXPLORE_COMMANDS then
          some (st, { events := [.error "I don't understand that."]
                      mode := st.mode, needs_input := true })
        else
          (handle_explore fuel st key).map fun p =>
            (p.1, { events := p.2, mode := p.1.mode, needs_input := true })
      | .ENCOUNTER =>
        if key ∉ ENCOUNTER_COMMANDS then
          some (st, { events := [.error "I don't understand that."]
                      mode := st.mode, needs_input := true })
        else
          (handle_encounter fuel st key).map fun p =>
            (p.1, { events := p.2, mode := p.1.mode, needs_input := true })
      | _ => some (st, { events := [], mode := st.mode, needs_input := false })

/-! ## Concrete draw streams for the generator -/

/-- Draws feeding `_place_treasures` so that treasures land at
`(0,0,0) .. (0,0,6)` and `(0,1,0) .. (0,1,2)`. -/
def treasureDraw (m : Nat) : Nat :=
  let i := m / 3
  match m % 3 with
  | 0 => 0
  | 1 => if i < 7 then 0 else 1
  | _ => if i < 7 then i else i - 7

/-- Draws feeding `_place_stairs`: floor `z` uses `(6,6)` for even `z`
and `(5,5)` for odd `z`. -/
def stairDraw (m : Nat) : Nat :=
  if (m / 2) % 2 = 0 then 6 else 5

/-- A stream on which every room is left plain and all rejection loops
finish at once. -/
def c1Stream : Nat → Nat := fun n =>
  if n < 343 then 0
  else if n < 373 then treasureDraw (n - 343)
  else if n < 385 then stairDraw (n - 373)
  else 0

/-- A stream that makes room `(0,0,0)` a level-1 monster room and then
places treasure 1 into that same room. -/
def c2Stream : Nat → Nat := fun n =>
  if n = 0 then floatDenom - 1
  else if n = 1 then 8
  else if n = 2 then 0
  else if n < 345 then 0
  else if n < 375 then treasureDraw (n - 345)
  else if n < 387 then stairDraw (n - 375)
  else 0

/-- The number of first draws (out of the `2^53` possible `random()`
numerators) for which `_create_room` leaves the room plain. -/
def plain_draw_count : Nat :=
  ((Finset.range floatDenom).filter fun k =>
    (create_room ⟨fun _ => k, 0⟩ 0).1 = ({} : Room)).card

/-! ## Concrete states for witnesses and counterexamples -/

/-- The all-zeros draw stream. -/
def zeroStream : Nat → Nat := fun _ => 0

/-- A well-formed player used by the concrete witness states. -/
def testPlayer : Player where
  z := 0
  y := 3
  x := 3
  race := .HUMAN
  str_ := 10
  dex := 10
  iq := 12
  hp := 20
  mhp := 20
  gold := 100
  flares := 0
  treasures_found := ∅
  weapon_tier := 1
  armor_tier := 1
  weapon_name := "Dagger"
  weapon_broken := false
  armor_name := "Leather"
  armor_damaged := false
  spells := fun _ => 1
  fatigued := false
  temp_armor_bonus := 0

/-- The clamping invariant of the player's attributes: STR/DEX/IQ in
`[1, 18]`, max HP at least 1, current HP at most max HP. -/
abbrev StatsOK (p : Player) : Prop :=
  1 ≤ p.str_ ∧ p.str_ ≤ 18 ∧ 1 ≤ p.dex ∧ p.dex ≤ 18 ∧
    1 ≤ p.iq ∧ p.iq ≤ 18 ∧ 1 ≤ p.mhp ∧ p.hp ≤ p.mhp

/-- Explore-mode state on an empty dungeon (for the command-dispatch
claims). -/
def c4State : GameState where
  rng := ⟨zeroStream, 0⟩
  dungeon := emptyGrid
  player := testPlayer
  mode := .EXPLORE
  encounter := none
  awaiting_spell := false
  shop_state := none

/-- Draws for the final-retaliation death scenario: retaliation triggers
(`random() > 0.7`), the attack roll 100 beats the dodge score, the
damage extra is 0, the gold extra is 0. -/
def c3Stream : Nat → Nat := fun n =>
  if n = 0 then floatDenom - 1 else if n = 1 then 99 else 0

/-- A fragile player mid-encounter with a level-1 monster in the room. -/
def c3State : GameState where
  rng := ⟨c3Stream, 0⟩
  dungeon := setRoom emptyGrid 0 3 3
    { feature := .EMPTY, monster_level := 1, treasure_id := 0, seen := true }
  player := { testPlayer with hp := 1, dex := 3, armor_tier := 0 }
  mode := .ENCOUNTER
  encounter := some ⟨1, "Skeleton", 0⟩
  awaiting_spell := false
  shop_state := none

/-- Encounter state for the engine Fireball counterexample: IQ 18, one
charge, the monster at 5 vitality, all draws zero. -/
def c5State : GameState where
  rng := ⟨zeroStream, 0⟩
  dungeon := setRoom emptyGrid 0 3 3 { monster_level := 1, seen := true }
  player := { testPlayer with iq := 18 }
  mode := .ENCOUNTER
  encounter := some ⟨1, "Skeleton", 5⟩
  awaiting_spell := true
  shop_state := none

/-- Session state for the Fireball witness: IQ 18, vitality 20. -/
def c5Session : SessionState where
  rng := ⟨zeroStream, 0⟩
  player := { testPlayer with iq := 18 }
  monster_level := 1
  monster_name := "Skeleton"
  vitality := 20
  awaiting_spell := true
  debug := false

/-- Session state for the flee witness. -/
def c10Session : SessionState where
  rng := ⟨zeroStream, 0⟩
  player := testPlayer
  monster_level := 1
  monster_name := "Skeleton"
  vitality := 5
  awaiting_spell := false
  debug := false

/-- Vendor session whose player already owns the best weapon. -/
def c6Vendor : VendorState where
  rng := ⟨zeroStream, 0⟩
  player := { testPlayer with weapon_tier := 3, weapon_name := "Broadsword" }
  phase := "item"
  category := some "W"

/-- The ping-pong stream for the warp chain: draw triples that relocate
`(0,0,0) → (1,1,1) → (0,0,0) → ...` forever. -/
def pingStream : Nat → Nat := fun n => if (n / 3) % 2 = 0 then 1 else 0

/-- A dungeon with warp rooms at `(0,0,0)` and `(1,1,1)`. -/
def warpGrid : Grid :=
  setRoom (setRoom emptyGrid 0 0 0 { feature := .WARP }) 1 1 1
    { feature := .WARP }

/-- The player standing in the first warp room of `warpGrid`. -/
def c9State : GameState where
  rng := ⟨pingStream, 0⟩
  dungeon := warpGrid
  player := { testPlayer with z := 0, y := 0, x := 0 }
  mode := .EXPLORE
  encounter := none
  awaiting_spell := false
  shop_state := none

/-- Invariant of the warp ping-pong: the stream is `pingStream`, both
warp cells are monster- and treasure-free warps, and the player stands in
one of them with the generator position in the matching phase. -/
def WarpPing (st : GameState) : Prop :=
  st.rng.stream = pingStream ∧
  ((st.dungeon 0 0 0).feature = .WARP ∧ (st.dungeon 0 0 0).monster_level = 0 ∧
    (st.dungeon 0 0 0).treasure_id = 0) ∧
  ((st.dungeon 1 1 1).feature = .WARP ∧ (st.dungeon 1 1 1).monster_level = 0 ∧
    (st.dungeon 1 1 1).treasure_id = 0) ∧
  ((st.rng.pos % 6 = 0 ∧ st.player.z = 0 ∧ st.player.y = 0 ∧ st.player.x = 0) ∨
    (st.rng.pos % 6 = 3 ∧ st.player.z = 1 ∧ st.player.y = 1 ∧ st.player.x = 1))

/-! ## Invariants of the generation phases -/

/-- State of a room after the grid-filling phase: no treasure, unseen,
a feature only in monster-free rooms, and no staircase or exit feature. -/
def baseRoomOK (room : Room) : Prop :=
  room.treasure_id = 0 ∧ room.seen = false ∧
    (room.feature ≠ .EMPTY → room.monster_level = 0) ∧
    room.feature ≠ .STAIRS_UP ∧ room.feature ≠ .STAIRS_DOWN ∧
    room.feature ≠ .EXIT

/-- Rooms holding a feature hold no monster. -/
def MonsterInv (g : Grid) : Prop :=
  ∀ z y x, (g z y x).feature ≠ .EMPTY → (g z y x).monster_level = 0

/-- Rooms holding a treasure are featureless. -/
def TreasureInv (g : Grid) : Prop :=
  ∀ z y x, (g z y x).treasure_id ≠ 0 → (g z y x).feature = .EMPTY

/-- Staircase and exit rooms hold no monster and no treasure. -/
def CleanStairs (g : Grid) : Prop :=
  ∀ z y x,
    ((g z y x).feature = .STAIRS_UP ∨ (g z y x).feature = .STAIRS_DOWN ∨
      (g z y x).feature = .EXIT) →
    (g z y x).monster_level = 0 ∧ (g z y x).treasure_id = 0

/-- No exit feature anywhere (holds until `_place_exit` runs). -/
def NoExit (g : Grid) : Prop := ∀ z y x, (g z y x).feature ≠ .EXIT

/-- Stair structure after `_place_stairs` has processed the floors below
`z`: no stairs-up on floors `≥ z`, no stairs-down on floor `0` or on
floors `> z`, and for every processed floor `w < z` a single aligned
stairs-up/stairs-down pair. -/
def StairStruct (z : Nat) (g : Grid) : Prop :=
  (∀ w y x, z ≤ w → (g w y x).feature ≠ .STAIRS_UP) ∧
  (∀ y x, (g 0 y x).feature ≠ .STAIRS_DOWN) ∧
  (∀ w y x, z < w → (g w y x).feature ≠ .STAIRS_DOWN) ∧
  (∀ w, w < z → ∃ y₀ x₀, y₀ < 7 ∧ x₀ < 7 ∧
    (∀ y x, ((g w y x).feature = .STAIRS_UP ↔ y = y₀ ∧ x = x₀)) ∧
    (∀ y x, ((g (w + 1) y x).feature = .STAIRS_DOWN ↔ y = y₀ ∧ x = x₀)))

/-- Exit structure after `_place_exit`: a single exit, on the deepest
floor. -/
def ExitStruct (g : Grid) : Prop :=
  ∃ y₀ x₀, y₀ < 7 ∧ x₀ < 7 ∧
    ∀ z y x, ((g z y x).feature = .EXIT ↔ z = 6 ∧ y = y₀ ∧ x = x₀)

/-- Bundle of the generation invariants threaded through the phases. -/
def GenInv (g : Grid) : Prop :=
  MonsterInv g ∧ TreasureInv g ∧ CleanStairs g ∧ NoExit g

lemma setRoom_eval (g : Grid) (z y x : Nat) (room : Room) (z' y' x' : Nat) :
    setRoom g z y x room z' y' x' =
      if z' = z ∧ y' = y ∧ x' = x then room else g z' y' x' := rfl

lemma setRoom_same (g : Grid) (z y x : Nat) (room : Room) :
    setRoom g z y x room z y x = room := by
  simp [setRoom]

lemma setRoom_other (g : Grid) (z y x : Nat) (room : Room) (z' y' x' : Nat)
    (h : ¬(z' = z ∧ y' = y ∧ x' = x)) :
    setRoom g z y x room z' y' x' = g z' y' x' := by
  simp [setRoom, h]

lemma featureOfNat_base {n : Nat} (h : n ≤ 8) :
    featureOfNat n ≠ .STAIRS_UP ∧ featureOfNat n ≠ .STAIRS_DOWN ∧
      featureOfNat n ≠ .EXIT := by
  interval_cases n <;> simp [featureOfNat]

/-- The room produced by `_create_room` satisfies the base invariants. -/
lemma create_room_baseOK (r : Rng) (floor : Nat) :
    baseRoomOK (create_room r floor).1 := by
  unfold create_room baseRoomOK
  simp only [Rng.randFloat, Rng.randint, Rng.next]
  split
  · split
    · simp
    · rename_i hroll
      have h8 : 1 + (r.stream (r.pos + 1)) % (10 + 1 - 1) ≤ 8 := by omega
      have := featureOfNat_base h8
      simp [this]
  · simp

/-- Filling rooms preserves the base invariant pointwise. -/
lemma fill_rooms_baseOK :
    ∀ (cells : List (Nat × Nat × Nat)) (g : Grid) (r : Rng),
      (∀ z y x, baseRoomOK (g z y x)) →
      ∀ z y x, baseRoomOK ((fill_rooms cells g r).1 z y x)
  | [], g, r, hg, z, y, x => hg z y x
  | c :: rest, g, r, hg, z, y, x => by
    simp only [fill_rooms]
    apply fill_rooms_baseOK rest _ _ _ z y x
    intro z' y' x'
    rw [setRoom_eval]
    split
    · exact create_room_baseOK r c.1
    · exact hg z' y' x'

lemma emptyGrid_baseOK : ∀ z y x, baseRoomOK (emptyGrid z y x) := by
  intro z y x
  simp [emptyGrid, baseRoomOK]

lemma mem_cube {c : Nat × Nat × Nat} :
    c ∈ cube ↔ c.1 < 7 ∧ c.2.1 < 7 ∧ c.2.2 < 7 := by
  obtain ⟨a, b, d⟩ := c
  simp [cube, Finset.mem_product]

lemma mem_floorSquare {p : Nat × Nat} :
    p ∈ floorSquare ↔ p.1 < 7 ∧ p.2 < 7 := by
  obtain ⟨a, b⟩ := p
  simp [floorSquare, Finset.mem_product]

lemma treasure_count_congr {g g' : Grid}
    (h : ∀ z y x, z < 7 → y < 7 → x < 7 →
      (g' z y x).treasure_id = (g z y x).treasure_id) :
    treasure_count g' = treasure_count g := by
  unfold treasure_count
  congr 1
  apply Finset.filter_congr
  intro c hc
  obtain ⟨a, b, d⟩ := c
  rw [mem_cube] at hc
  simp [h a b d hc.1 hc.2.1 hc.2.2]

lemma treasure_count_zero {g : Grid}
    (h : ∀ z y x, (g z y x).treasure_id = 0) : treasure_count g = 0 := by
  unfold treasure_count
  rw [Finset.card_eq_zero, Finset.filter_eq_empty_iff]
  intro c _
  simp [h]

lemma treasure_count_setRoom {g : Grid} {z y x : Nat}
    (hz : z < 7) (hy : y < 7) (hx : x < 7) {room : Room}
    (h0 : (g z y x).treasure_id = 0) (h1 : room.treasure_id ≠ 0) :
    treasure_count (setRoom g z y x room) = treasure_count g + 1 := by
  unfold treasure_count
  have hins :
      (cube.filter fun c =>
        ((setRoom g z y x room) c.1 c.2.1 c.2.2).treasure_id ≠ 0)
      = insert (z, y, x)
          (cube.filter fun c => (g c.1 c.2.1 c.2.2).treasure_id ≠ 0) := by
    ext c
    obtain ⟨a, b, d⟩ := c
    by_cases hc : a = z ∧ b = y ∧ d = x
    · obtain ⟨h₁, h₂, h₃⟩ := hc
      subst h₁; subst h₂; subst h₃
      simp [Finset.mem_filter, Finset.mem_insert, mem_cube, setRoom, hz, hy, hx, h1]
    · rw [Finset.mem_insert, Finset.mem_filter, Finset.mem_filter]
      rw [show setRoom g z y x room a b d = g a b d from setRoom_other _ _ _ _ _ _ _ _ hc]
      have hne : ¬((a, b, d) = ((z, y, x) : Nat × Nat × Nat)) := by
        simp [Prod.ext_iff]
        intro h₁ h₂
        intro h₃
        exact hc ⟨h₁, h₂, h₃⟩
      simp [hne]
  rw [hins, Finset.card_insert_of_not_mem]
  simp [Finset.mem_filter, h0]

/-- Combined soundness of `_place_treasures`: features, monsters and seen
flags are untouched; treasures stay confined to featureless rooms; and on
completion exactly 10 rooms hold a treasure. -/
lemma place_treasures_sound :
    ∀ (fuel placed : Nat) (g : Grid) (r : Rng) (g' : Grid) (r' : Rng),
      place_treasures fuel placed g r = some (g', r') →
      (∀ z y x, (g' z y x).feature = (g z y x).feature ∧
        (g' z y x).monster_level = (g z y x).monster_level ∧
        (g' z y x).seen = (g z y x).seen) ∧
      (TreasureInv g → TreasureInv g') ∧
      (treasure_count g = placed → placed ≤ 10 → treasure_count g' = 10)
  | 0, placed, g, r, g', r', h => by simp [place_treasures] at h
  | fuel + 1, placed, g, r, g', r', h => by
    rw [place_treasures] at h
    split at h
    · rename_i hp
      rw [Option.some.injEq, Prod.mk.injEq] at h
      obtain ⟨rfl, rfl⟩ := h
      refine ⟨fun z y x => ⟨rfl, rfl, rfl⟩, fun hinv => hinv, fun hc hle => ?_⟩
      omega
    · rename_i hp
      simp only [Rng.randrange, Rng.next] at h
      split at h
      · exact place_treasures_sound fuel placed g _ g' r' h
      · split at h
        · exact place_treasures_sound fuel placed g _ g' r' h
        · rename_i ht hf
          have ih := place_treasures_sound fuel (placed + 1) _ _ g' r' h
          have ht0 : (g (r.stream r.pos % 7) (r.stream (r.pos + 1) % 7)
              (r.stream (r.pos + 1 + 1) % 7)).treasure_id = 0 := by omega
          have hfE : (g (r.stream r.pos % 7) (r.stream (r.pos + 1) % 7)
              (r.stream (r.pos + 1 + 1) % 7)).feature = .EMPTY := by
            by_contra hne
            exact hf hne
          refine ⟨fun z y x => ?_, fun hinv => ?_, fun hc hle => ?_⟩
          · obtain ⟨i₁, i₂, i₃⟩ := ih.1 z y x
            rw [i₁, i₂, i₃]
            rw [setRoom_eval]
            split
            · rename_i hcell
              obtain ⟨rfl, rfl, rfl⟩ := hcell
              exact ⟨rfl, rfl, rfl⟩
            · exact ⟨rfl, rfl, rfl⟩
          · apply ih.2.1
            simp only [TreasureInv] at hinv ⊢
            intro z y x hzyx
            rw [setRoom_eval] at hzyx ⊢
            split at hzyx
            · rename_i hcell
              obtain ⟨rfl, rfl, rfl⟩ := hcell
              simp [hfE]
            · rename_i hcell
              rw [if_neg hcell]
              exact hinv z y x hzyx
          · apply ih.2.2 _ (by omega)
            rw [treasure_count_setRoom (Nat.mod_lt _ (by norm_num))
              (Nat.mod_lt _ (by norm_num)) (Nat.mod_lt _ (by norm_num)) ht0
              (by simp)]
            omega

lemma double_set_eval (g : Grid) (z y₀ x₀ : Nat) (ru rd : Room) (a b c : Nat) :
    setRoom (setRoom g z y₀ x₀ ru) (z + 1) y₀ x₀ rd a b c =
      if a = z + 1 ∧ b = y₀ ∧ c = x₀ then rd
      else if a = z ∧ b = y₀ ∧ c = x₀ then ru
      else g a b c := by
  rw [setRoom_eval]
  split
  · rfl
  · rw [setRoom_eval]

/-- Success of the inner loop of `_place_stairs` for one floor: the drawn
position is in range, both affected rooms are monster- and treasure-free,
the upper one is not a stairs-down, and the result is the double update. -/
lemma place_stair_one_spec :
    ∀ (fuel : Nat) {z : Nat} {g : Grid} {r : Rng} {g' : Grid} {r' : Rng},
      place_stair_one z fuel g r = some (g', r') →
      ∃ y₀ x₀, y₀ < 7 ∧ x₀ < 7 ∧
        (g z y₀ x₀).treasure_id = 0 ∧ (g z y₀ x₀).monster_level = 0 ∧
        (g (z + 1) y₀ x₀).treasure_id = 0 ∧
        (g (z + 1) y₀ x₀).monster_level = 0 ∧
        (g z y₀ x₀).feature ≠ .STAIRS_DOWN ∧
        g' = setRoom (setRoom g z y₀ x₀
              { g z y₀ x₀ with feature := .STAIRS_UP })
            (z + 1) y₀ x₀ { g (z + 1) y₀ x₀ with feature := .STAIRS_DOWN }
  | 0, z, g, r, g', r', h => by simp [place_stair_one] at h
  | fuel + 1, z, g, r, g', r', h => by
    rw [place_stair_one] at h
    simp only [Rng.randrange, Rng.next] at h
    split at h
    · exact place_stair_one_spec fuel h
    · split at h
      · exact place_stair_one_spec fuel h
      · split at h
        · exact place_stair_one_spec fuel h
        · rename_i h₁ h₂ h₃
          rw [Option.some.injEq, Prod.mk.injEq] at h
          obtain ⟨hg, _⟩ := h
          exact ⟨r.stream r.pos % 7, r.stream (r.pos + 1) % 7,
            Nat.mod_lt _ (by norm_num), Nat.mod_lt _ (by norm_num),
            by omega, by omega, by omega, by omega, h₃, hg.symm⟩

/-- One stair placement advances the structural invariant by one floor and
preserves the other generation invariants, touching no monster or
treasure field. -/
lemma place_stair_one_inv {z fuel : Nat} {g : Grid} {r : Rng} {g' : Grid}
    {r' : Rng} (h : place_stair_one z fuel g r = some (g', r'))
    (hs : StairStruct z g) (hi : GenInv g) :
    StairStruct (z + 1) g' ∧ GenInv g' ∧
      (∀ a b c, (g' a b c).treasure_id = (g a b c).treasure_id ∧
        (g' a b c).monster_level = (g a b c).monster_level) := by
  obtain ⟨y₀, x₀, hy₀, hx₀, ht₁, hm₁, ht₂, hm₂, hnd, rfl⟩ :=
    place_stair_one_spec fuel h
  obtain ⟨s₁, s₂, s₃, s₄⟩ := hs
  obtain ⟨iM, iT, iC, iN⟩ := hi
  have heval := double_set_eval g z y₀ x₀
    { g z y₀ x₀ with feature := .STAIRS_UP }
    { g (z + 1) y₀ x₀ with feature := .STAIRS_DOWN }
  refine ⟨⟨?_, ?_, ?_, ?_⟩, ⟨?_, ?_, ?_, ?_⟩, ?_⟩
  · intro w y x hw
    rw [heval]
    split
    · simp
    · split
      · rename_i hc
        omega
      · exact s₁ w y x (by omega)
  · intro y x
    rw [heval]
    split
    · rename_i hc
      omega
    · split
      · simp
      · exact s₂ y x
  · intro w y x hw
    rw [heval]
    split
    · rename_i hc
      omega
    · split
      · rename_i hc
        omega
      · exact s₃ w y x (by omega)
  · intro w hw
    by_cases hwz : w = z
    · subst hwz
      refine ⟨y₀, x₀, hy₀, hx₀, fun y x => ?_, fun y x => ?_⟩
      · rw [heval]
        split
        · rename_i hc
          omega
        · split
          · rename_i hc
            simp
            omega
          · rename_i hc₁ hc₂
            have := s₁ w y x (by omega)
            simp [this]
            intro hy hx
            exact hc₂ ⟨rfl, hy, hx⟩
      · rw [heval]
        split
        · rename_i hc
          simp
          omega
        · split
          · rename_i hc
            omega
          · rename_i hc₁ hc₂
            have := s₃ (w + 1) y x (by omega)
            simp [this]
            intro hy hx
            exact hc₁ ⟨rfl, hy, hx⟩
    · have hwlt : w < z := by omega
      obtain ⟨p, q, hp, hq, hup, hdown⟩ := s₄ w hwlt
      refine ⟨p, q, hp, hq, fun y x => ?_, fun y x => ?_⟩
      · rw [heval]
        split
        · rename_i hc
          omega
        · split
          · rename_i hc
            omega
          · exact hup y x
      · rw [heval]
        split
        · rename_i hc
          omega
        · split
          · rename_i hc
            obtain ⟨hc₁, hc₂, hc₃⟩ := hc
            subst hc₂
            subst hc₃
            have hwz1 : w + 1 = z := by omega
            rw [hwz1] at hdown
            have : ¬(y = p ∧ x = q) := by
              intro ⟨hyp, hxq⟩
              subst hyp
              subst hxq
              exact hnd (hdown y x |>.mpr ⟨rfl, rfl⟩)
            simp [this]
          · exact hdown y x
  · intro a b c
    rw [heval]
    split
    · intro h'
      simpa using hm₂
    · split
      · intro h'
        simpa using hm₁
      · exact iM a b c
  · intro a b c
    rw [heval]
    split
    · simp [ht₂]
    · split
      · simp [ht₁]
      · exact iT a b c
  · intro a b c
    rw [heval]
    split
    · simp [hm₂, ht₂]
    · split
      · simp [hm₁, ht₁]
      · exact iC a b c
  · intro a b c
    rw [heval]
    split
    · simp
    · split
      · simp
      · exact iN a b c
  · intro a b c
    rw [heval]
    split
    · rename_i hc
      obtain ⟨hc₁, hc₂, hc₃⟩ := hc
      subst hc₁; subst hc₂; subst hc₃
      exact ⟨rfl, rfl⟩
    · split
      · rename_i hc₁ hc
        obtain ⟨hc₂, hc₃, hc₄⟩ := hc
        subst hc₂; subst hc₃; subst hc₄
        exact ⟨rfl, rfl⟩
      · exact ⟨rfl, rfl⟩

/-- The floor-by-floor stair placement loop, for the floors
`z, z+1, ..., z+n-1`. -/
lemma place_stairs_aux_inv :
    ∀ (n z fuel : Nat) (g : Grid) (r : Rng) (g' : Grid) (r' : Rng),
      place_stairs_aux fuel (List.range' z n) g r = some (g', r') →
      StairStruct z g → GenInv g →
      StairStruct (z + n) g' ∧ GenInv g' ∧
        (∀ a b c, (g' a b c).treasure_id = (g a b c).treasure_id ∧
          (g' a b c).monster_level = (g a b c).monster_level)
  | 0, z, fuel, g, r, g', r', h, hs, hi => by
    simp only [List.range', place_stairs_aux, Option.some.injEq,
      Prod.mk.injEq] at h
    obtain ⟨rfl, rfl⟩ := h
    exact ⟨by simpa using hs, hi, fun a b c => ⟨rfl, rfl⟩⟩
  | n + 1, z, fuel, g, r, g', r', h, hs, hi => by
    rw [show List.range' z (n + 1) = z :: List.range' (z + 1) n from rfl,
      place_stairs_aux] at h
    cases hstep : place_stair_one z fuel g r with
    | none => rw [hstep] at h; exact absurd h (by simp)
    | some p =>
      rw [hstep] at h
      obtain ⟨g₁, r₁⟩ := p
      obtain ⟨hs₁, hi₁, hpres₁⟩ := place_stair_one_inv hstep hs hi
      obtain ⟨hs₂, hi₂, hpres₂⟩ :=
        place_stairs_aux_inv n (z + 1) fuel g₁ r₁ g' r' h hs₁ hi₁
      refine ⟨by rwa [show z + (n + 1) = z + 1 + n by omega], hi₂,
        fun a b c => ?_⟩
      obtain ⟨p₁, p₂⟩ := hpres₁ a b c
      obtain ⟨q₁, q₂⟩ := hpres₂ a b c
      exact ⟨q₁.trans p₁, q₂.trans p₂⟩

/-- Success of the `_place_exit` rejection loop. -/
lemma place_exit_spec :
    ∀ (fuel : Nat) {g : Grid} {r : Rng} {g' : Grid} {r' : Rng},
      place_exit fuel g r = some (g', r') →
      ∃ y₀ x₀, y₀ < 7 ∧ x₀ < 7 ∧
        (g 6 y₀ x₀).treasure_id = 0 ∧ (g 6 y₀ x₀).monster_level = 0 ∧
        (g 6 y₀ x₀).feature ≠ .STAIRS_UP ∧
        (g 6 y₀ x₀).feature ≠ .STAIRS_DOWN ∧
        g' = setRoom g 6 y₀ x₀ { g 6 y₀ x₀ with feature := .EXIT }
  | 0, g, r, g', r', h => by simp [place_exit] at h
  | fuel + 1, g, r, g', r', h => by
    rw [place_exit] at h
    simp only [Rng.randrange, Rng.next] at h
    split at h
    · exact place_exit_spec fuel h
    · split at h
      · exact place_exit_spec fuel h
      · rename_i h₁ h₂
        rw [Option.some.injEq, Prod.mk.injEq] at h
        obtain ⟨hg, _⟩ := h
        push_neg at h₂
        exact ⟨r.stream r.pos % 7, r.stream (r.pos + 1) % 7,
          Nat.mod_lt _ (by norm_num), Nat.mod_lt _ (by norm_num),
          by omega, by omega, h₂.1, h₂.2.1, hg.symm⟩

/-- Exit placement: produces the unique exit on the deepest floor and
preserves the stair structure and the other invariants. -/
lemma place_exit_inv {fuel : Nat} {g : Grid} {r : Rng} {g' : Grid}
    {r' : Rng} (h : place_exit fuel g r = some (g', r'))
    (hs : StairStruct 6 g) (hi : GenInv g) :
    StairStruct 6 g' ∧ MonsterInv g' ∧ TreasureInv g' ∧ CleanStairs g' ∧
      ExitStruct g' ∧
      (∀ a b c, (g' a b c).treasure_id = (g a b c).treasure_id ∧
        (g' a b c).monster_level = (g a b c).monster_level) := by
  obtain ⟨y₀, x₀, hy₀, hx₀, ht, hm, hnu, hnd, rfl⟩ := place_exit_spec fuel h
  obtain ⟨s₁, s₂, s₃, s₄⟩ := hs
  obtain ⟨iM, iT, iC, iN⟩ := hi
  refine ⟨⟨?_, ?_, ?_, ?_⟩, ?_, ?_, ?_, ?_, ?_⟩
  · intro w y x hw
    rw [setRoom_eval]
    split
    · simp
    · exact s₁ w y x hw
  · intro y x
    rw [setRoom_eval]
    split
    · rename_i hc
      omega
    · exact s₂ y x
  · intro w y x hw
    rw [setRoom_eval]
    split
    · simp
    · exact s₃ w y x hw
  · intro w hw
    obtain ⟨p, q, hp, hq, hup, hdown⟩ := s₄ w hw
    refine ⟨p, q, hp, hq, fun y x => ?_, fun y x => ?_⟩
    · rw [setRoom_eval]
      split
      · rename_i hc
        omega
      · exact hup y x
    · rw [setRoom_eval]
      split
      · rename_i hc
        obtain ⟨hc₁, hc₂, hc₃⟩ := hc
        subst hc₂
        subst hc₃
        have hw6 : w + 1 = 6 := hc₁
        rw [hw6] at hdown
        have : ¬(y = p ∧ x = q) := by
          intro ⟨hyp, hxq⟩
          subst hyp
          subst hxq
          exact hnd (hdown y x |>.mpr ⟨rfl, rfl⟩)
        simp [this]
      · exact hdown y x
  · intro a b c
    rw [setRoom_eval]
    split
    · intro h'
      simpa using hm
    · exact iM a b c
  · intro a b c
    rw [setRoom_eval]
    split
    · simp [ht]
    · exact iT a b c
  · intro a b c
    rw [setRoom_eval]
    split
    · simp [hm, ht]
    · exact iC a b c
  · refine ⟨y₀, x₀, hy₀, hx₀, fun z y x => ?_⟩
    rw [setRoom_eval]
    split
    · rename_i hc
      simp
      omega
    · rename_i hc
      have := iN z y x
      simp [this]
      intro hz hy hx
      exact hc ⟨hz, hy, hx⟩
  · intro a b c
    rw [setRoom_eval]
    split
    · rename_i hc
      obtain ⟨hc₁, hc₂, hc₃⟩ := hc
      subst hc₁; subst hc₂; subst hc₃
      exact ⟨rfl, rfl⟩
    · exact ⟨rfl, rfl⟩

/-! ## Counting lemmas for the validator -/

lemma stairs_up_count_one {g : Grid} {z y₀ x₀ : Nat} (hy : y₀ < 7)
    (hx : x₀ < 7)
    (h : ∀ y x, (g z y x).feature = .STAIRS_UP ↔ y = y₀ ∧ x = x₀) :
    stairs_up_count g z = 1 := by
  unfold stairs_up_count
  rw [Finset.card_eq_one]
  refine ⟨(y₀, x₀), ?_⟩
  ext p
  obtain ⟨a, b⟩ := p
  simp only [Finset.mem_filter, mem_floorSquare, h a b,
    Finset.mem_singleton, Prod.mk.injEq]
  constructor
  · rintro ⟨_, rfl, rfl⟩
    exact ⟨rfl, rfl⟩
  · rintro ⟨rfl, rfl⟩
    exact ⟨⟨hy, hx⟩, rfl, rfl⟩

lemma stairs_up_count_zero {g : Grid} {z : Nat}
    (h : ∀ y x, (g z y x).feature ≠ .STAIRS_UP) :
    stairs_up_count g z = 0 := by
  unfold stairs_up_count
  rw [Finset.card_eq_zero, Finset.filter_eq_empty_iff]
  intro p _
  exact h p.1 p.2

lemma stairs_down_count_one {g : Grid} {z y₀ x₀ : Nat} (hy : y₀ < 7)
    (hx : x₀ < 7)
    (h : ∀ y x, (g z y x).feature = .STAIRS_DOWN ↔ y = y₀ ∧ x = x₀) :
    stairs_down_count g z = 1 := by
  unfold stairs_down_count
  rw [Finset.card_eq_one]
  refine ⟨(y₀, x₀), ?_⟩
  ext p
  obtain ⟨a, b⟩ := p
  simp only [Finset.mem_filter, mem_floorSquare, h a b,
    Finset.mem_singleton, Prod.mk.injEq]
  constructor
  · rintro ⟨_, rfl, rfl⟩
    exact ⟨rfl, rfl⟩
  · rintro ⟨rfl, rfl⟩
    exact ⟨⟨hy, hx⟩, rfl, rfl⟩

lemma stairs_down_count_zero {g : Grid} {z : Nat}
    (h : ∀ y x, (g z y x).feature ≠ .STAIRS_DOWN) :
    stairs_down_count g z = 0 := by
  unfold stairs_down_count
  rw [Finset.card_eq_zero, Finset.filter_eq_empty_iff]
  intro p _
  exact h p.1 p.2

lemma exit_count_one {g : Grid} (h : ExitStruct g) : exit_count g = 1 := by
  obtain ⟨y₀, x₀, hy, hx, hiff⟩ := h
  unfold exit_count
  rw [Finset.card_eq_one]
  refine ⟨(6, y₀, x₀), ?_⟩
  ext c
  obtain ⟨a, b, d⟩ := c
  simp only [Finset.mem_filter, mem_cube, hiff a b d,
    Finset.mem_singleton, Prod.mk.injEq]
  constructor
  · rintro ⟨_, rfl, rfl, rfl⟩
    exact ⟨rfl, rfl, rfl⟩
  · rintro ⟨rfl, rfl, rfl⟩
    exact ⟨⟨by norm_num, hy, hx⟩, rfl, rfl, rfl⟩

lemma range_flatMap_nil {f : Nat → List String} {n : Nat}
    (h : ∀ i, i < n → f i = []) : (List.range n).flatMap f = [] := by
  rw [List.flatMap_eq_nil_iff]
  intro i hi
  exact h i (List.mem_range.mp hi)

/-! ## Soundness of the generator -/

/-- All invariants delivered by a successful `generate_dungeon` run. -/
lemma generate_dungeon_invariants {r : Rng} {fuel : Nat} {g : Grid}
    {r' : Rng} (h : generate_dungeon r fuel = some (g, r')) :
    MonsterInv g ∧ TreasureInv g ∧ CleanStairs g ∧ ExitStruct g ∧
      StairStruct 6 g ∧ treasure_count g = 10 := by
  rw [generate_dungeon] at h
  simp only [Option.bind_eq_some] at h
  obtain ⟨⟨g₁, r₁⟩, hpt, ⟨⟨g₂, r₂⟩, hps, hpe⟩⟩ := h
  have hbase : ∀ z y x,
      baseRoomOK ((fill_rooms gridCells emptyGrid r).1 z y x) :=
    fill_rooms_baseOK gridCells emptyGrid r emptyGrid_baseOK
  obtain ⟨hpres, htinv, hcount⟩ :=
    place_treasures_sound fuel 0 (fill_rooms gridCells emptyGrid r).1
      (fill_rooms gridCells emptyGrid r).2 g₁ r₁ hpt
  have hg₁base : ∀ z y x, (g₁ z y x).treasure_id ≠ 0 →
      (g₁ z y x).feature = .EMPTY := by
    apply htinv
    intro z y x hne
    exact absurd (hbase z y x).1 hne
  have hg₁feat : ∀ z y x, (g₁ z y x).feature =
      ((fill_rooms gridCells emptyGrid r).1 z y x).feature :=
    fun z y x => (hpres z y x).1
  have hg₁mon : ∀ z y x, (g₁ z y x).monster_level =
      ((fill_rooms gridCells emptyGrid r).1 z y x).monster_level :=
    fun z y x => (hpres z y x).2.1
  have hg₁count : treasure_count g₁ = 10 := by
    apply hcount _ (by norm_num)
    apply treasure_count_zero
    intro z y x
    exact (hbase z y x).1
  have hg₁inv : GenInv g₁ := by
    refine ⟨?_, hg₁base, ?_, ?_⟩
    · intro z y x hne
      rw [hg₁mon]
      apply (hbase z y x).2.2.1
      rw [← hg₁feat]
      exact hne
    · intro z y x hne
      rcases hne with hf | hf | hf <;>
        · rw [hg₁feat] at hf
          obtain ⟨_, _, _, h₁, h₂, h₃⟩ := hbase z y x
          first
            | exact absurd hf h₁
            | exact absurd hf h₂
            | exact absurd hf h₃
    · intro z y x
      rw [hg₁feat]
      exact (hbase z y x).2.2.2.2.2
  have hg₁stair : StairStruct 0 g₁ := by
    refine ⟨?_, ?_, ?_, ?_⟩
    · intro w y x _
      rw [hg₁feat]
      exact (hbase w y x).2.2.2.1
    · intro y x
      rw [hg₁feat]
      exact (hbase 0 y x).2.2.2.2.1
    · intro w y x _
      rw [hg₁feat]
      exact (hbase w y x).2.2.2.2.1
    · intro w hw
      omega
  rw [place_stairs, List.range_eq_range'] at hps
  obtain ⟨hs₂, hi₂, hpres₂⟩ :=
    place_stairs_aux_inv 6 0 fuel g₁ r₁ g₂ r₂ hps hg₁stair hg₁inv
  have hg₂count : treasure_count g₂ = 10 := by
    rw [treasure_count_congr fun z y x _ _ _ => (hpres₂ z y x).1]
    exact hg₁count
  obtain ⟨hs₃, hM₃, hT₃, hC₃, hE₃, hpres₃⟩ :=
    place_exit_inv hpe (by simpa using hs₂) hi₂
  refine ⟨hM₃, hT₃, hC₃, hE₃, hs₃, ?_⟩
  rw [treasure_count_congr fun z y x _ _ _ => (hpres₃ z y x).1]
  exact hg₂count

/-- C1: on every random stream on which the generator's rejection loops
terminate, the validator accepts the generated dungeon: exactly one exit,
on the deepest floor; exactly 10 treasure rooms; one aligned stair pair
per floor boundary; no monster or treasure in feature rooms. -/
theorem validate_generate_eq_nil (r : Rng) (fuel : Nat) (g : Grid)
    (r' : Rng) (h : generate_dungeon r fuel = some (g, r')) :
    validate_dungeon g = [] := by
  obtain ⟨hM, hT, hC, hE, hS, hcount⟩ := generate_dungeon_invariants h
  obtain ⟨s₁, s₂, s₃, s₄⟩ := hS
  unfold validate_dungeon
  rw [range_flatMap_nil, range_flatMap_nil, if_neg, if_neg]
  · simp
  · simp [hcount]
  · simp [exit_count_one hE]
  · intro z hz
    unfold floor_errors
    rw [if_neg, if_neg, if_neg, if_neg]
    · simp
    · rintro ⟨rfl, hcnt⟩
      apply hcnt
      apply stairs_down_count_zero
      intro y x
      exact s₂ y x
    · rintro ⟨hzpos, hcnt⟩
      apply hcnt
      obtain ⟨y₀, x₀, hy₀, hx₀, hup, hdown⟩ := s₄ (z - 1) (by omega)
      apply stairs_down_count_one hy₀ hx₀
      intro y x
      rw [show z - 1 + 1 = z by omega] at hdown
      exact hdown y x
    · rintro ⟨rfl, hcnt⟩
      apply hcnt
      apply stairs_up_count_zero
      intro y x
      exact s₁ 6 y x (by norm_num)
    · rintro ⟨hzlt, hcnt⟩
      apply hcnt
      obtain ⟨y₀, x₀, hy₀, hx₀, hup, hdown⟩ := s₄ z hzlt
      exact stairs_up_count_one hy₀ hx₀ hup
  · intro z hz
    apply range_flatMap_nil
    intro y hy
    apply range_flatMap_nil
    intro x hx
    unfold room_errors
    rw [if_neg, if_neg, if_neg, if_neg, if_neg, if_neg, if_neg, if_neg]
    · simp
    · rintro ⟨hf, hmt⟩
      rcases hC z y x (by tauto) with ⟨hm0, ht0⟩
      omega
    · rintro ⟨hf, hz0, hal⟩
      have hzle : z - 1 < 6 := by omega
      obtain ⟨y₀, x₀, hy₀, hx₀, hup, hdown⟩ := s₄ (z - 1) hzle
      rw [show z - 1 + 1 = z by omega] at hdown
      obtain ⟨rfl, rfl⟩ := (hdown y x).mp hf
      exact hal ((hup y x).mpr ⟨rfl, rfl⟩)
    · rintro ⟨hf, rfl⟩
      exact s₂ y x hf
    · rintro ⟨hf, hz6, hal⟩
      have hzlt : z < 6 := by omega
      obtain ⟨y₀, x₀, hy₀, hx₀, hup, hdown⟩ := s₄ z hzlt
      obtain ⟨rfl, rfl⟩ := (hup y x).mp hf
      exact hal ((hdown y x).mpr ⟨rfl, rfl⟩)
    · rintro ⟨hf, rfl⟩
      exact s₁ 6 y x (by norm_num) hf
    · rintro ⟨hm, hf⟩
      exact absurd (hM z y x hf) (by omega)
    · rintro ⟨ht, hf⟩
      exact hf (hT z y x ht)
    · rintro ⟨hf, hz6⟩
      obtain ⟨y₀, x₀, hy₀, hx₀, hiff⟩ := hE
      exact hz6 ((hiff z y x).mp hf).1

set_option maxHeartbeats 4000000 in
/-- Witness for `validate_generate_eq_nil`: on the concrete stream
`c1Stream` generation terminates and the theorem yields an accepted
dungeon. -/
theorem validate_generate_eq_nil_witness :
    ∃ g r', generate_dungeon ⟨c1Stream, 0⟩ 50 = some (g, r') ∧
      validate_dungeon g = [] := by
  obtain ⟨⟨g, r'⟩, hg⟩ :
      ∃ p, generate_dungeon ⟨c1Stream, 0⟩ 50 = some p := by
    have hs : (generate_dungeon ⟨c1Stream, 0⟩ 50).isSome = true := by decide
    exact Option.isSome_iff_exists.mp hs
  exact ⟨g, r', hg, validate_generate_eq_nil _ _ _ _ hg⟩

/-- C2 (amended): in every generated dungeon a room with a feature holds
neither monster nor treasure, and every treasure room is featureless; a
monster and a treasure, however, may share a room (see the
counterexample), since `_place_treasures` rejects only feature rooms and
already-treasured rooms. -/
theorem generated_room_feature_exclusive (r : Rng) (fuel : Nat) (g : Grid)
    (r' : Rng) (h : generate_dungeon r fuel = some (g, r')) (z y x : Nat) :
    ((g z y x).feature ≠ .EMPTY →
      (g z y x).monster_level = 0 ∧ (g z y x).treasure_id = 0) ∧
    ((g z y x).treasure_id ≠ 0 → (g z y x).feature = .EMPTY) := by
  obtain ⟨hM, hT, _, _, _, _⟩ := generate_dungeon_invariants h
  refine ⟨fun hf => ⟨hM z y x hf, ?_⟩, hT z y x⟩
  by_contra ht
  exact hf (hT z y x ht)

set_option maxHeartbeats 4000000 in
/-- C2 counterexample: on the stream `c2Stream` the generator produces a
dungeon whose room `(0,0,0)` holds both a level-1 monster and treasure 1,
refuting "every room carries at most one of feature/monster/treasure" and
"treasures land in monster-free rooms". -/
theorem treasure_shares_room_with_monster :
    (generate_dungeon ⟨c2Stream, 0⟩ 50).map
      (fun p => ((p.1 0 0 0).monster_level, (p.1 0 0 0).treasure_id))
      = some (1, 1) := by
  decide

set_option maxHeartbeats 4000000 in
/-- Witness for `generated_room_feature_exclusive` on the concrete stream
`c1Stream`, inspecting room `(0, 0, 0)`. -/
theorem generated_room_feature_exclusive_witness :
    ∃ g r', generate_dungeon ⟨c1Stream, 0⟩ 50 = some (g, r') ∧
      (((g 0 0 0).feature ≠ .EMPTY →
        (g 0 0 0).monster_level = 0 ∧ (g 0 0 0).treasure_id = 0) ∧
      ((g 0 0 0).treasure_id ≠ 0 → (g 0 0 0).feature = .EMPTY)) := by
  obtain ⟨⟨g, r'⟩, hg⟩ :
      ∃ p, generate_dungeon ⟨c1Stream, 0⟩ 50 = some p := by
    have hs : (generate_dungeon ⟨c1Stream, 0⟩ 50).isSome = true := by decide
    exact Option.isSome_iff_exists.mp hs
  exact ⟨g, r', hg, generated_room_feature_exclusive _ _ _ _ hg 0 0 0⟩

/-! ## The plain-room probability of `_create_room` (C8) -/

lemma featureOfNat_ne_empty {n : Nat} (h1 : 1 ≤ n) (h8 : n ≤ 8) :
    featureOfNat n ≠ .EMPTY := by
  interval_cases n <;> simp [featureOfNat]

/-- `_create_room` leaves the room plain exactly when the first draw `k`
satisfies `k / 2^53 ≤ 0.3`. -/
lemma create_room_plain_iff (k : Nat) :
    (create_room ⟨fun _ => k, 0⟩ 0).1 = ({} : Room) ↔
      10 * (k % floatDenom) ≤ 3 * floatDenom := by
  unfold create_room
  simp only [Rng.randFloat, Rng.randint, Rng.next]
  split
  · rename_i hgt
    constructor
    · intro hroom
      exfalso
      revert hroom
      split
      · simp only [Room.mk.injEq]
        intro ⟨_, hm, _, _⟩
        omega
      · rename_i hroll
        simp only [Room.mk.injEq]
        intro ⟨hf, _, _, _⟩
        exact featureOfNat_ne_empty (by omega) (by omega) hf
    · intro hle
      omega
  · rename_i hle
    simp only [true_iff]
    omega

lemma plain_draw_count_eq : plain_draw_count = 2702159776422298 := by
  unfold plain_draw_count
  have hcongr :
      ((Finset.range floatDenom).filter fun k =>
        (create_room ⟨fun _ => k, 0⟩ 0).1 = ({} : Room))
      = (Finset.range floatDenom).filter fun k => k ≤ 2702159776422297 := by
    apply Finset.filter_congr
    intro k hk
    rw [Finset.mem_range] at hk
    rw [create_room_plain_iff k, Nat.mod_eq_of_lt hk]
    constructor
    · intro h
      simp only [floatDenom] at h
      norm_num at h
      omega
    · intro h
      simp only [floatDenom]
      norm_num
      omega
  rw [hcongr]
  have hrange : (Finset.range floatDenom).filter
      (fun k => k ≤ 2702159776422297) = Finset.range 2702159776422298 := by
    ext k
    simp only [Finset.mem_filter, Finset.mem_range, floatDenom]
    norm_num
    omega
  rw [hrange, Finset.card_range]

/-- C8 counterexample: the fraction of first draws that leave a room
plain is exactly `(3 * 2^53 + 4) / (10 * 2^53)` — about `0.3`, not the
claimed `0.7` (`_create_room` tests `rng.random() > 0.3`, so the plain
branch is the roughly-30% one). -/
theorem plain_probability_counterexample :
    10 * plain_draw_count = 3 * floatDenom + 4 ∧
      10 * plain_draw_count ≠ 7 * floatDenom := by
  rw [plain_draw_count_eq]
  constructor
  · norm_num [floatDenom]
  · norm_num [floatDenom]

/-- C8 (amended): a room is left plain exactly when the first `random()`
draw is at most `0.3` (probability about `0.3`); otherwise a `1..10` roll
follows — rolls 9 and 10 place a monster whose level lies in
`[floor+1, min(10, floor+6)]` in a featureless, treasure-free room, and
rolls 1–8 place the feature variant with that numeric value. -/
theorem create_room_spec (r : Rng) (floor : Nat) (hf : floor < 7) :
    (10 * (r.stream r.pos % floatDenom) ≤ 3 * floatDenom →
      (create_room r floor).1 = {}) ∧
    (10 * (r.stream r.pos % floatDenom) > 3 * floatDenom →
      ((1 + r.stream (r.pos + 1) % 10 > 8 →
        (create_room r floor).1.feature = .EMPTY ∧
        (create_room r floor).1.treasure_id = 0 ∧
        floor + 1 ≤ (create_room r floor).1.monster_level ∧
        (create_room r floor).1.monster_level ≤ min 10 (floor + 6)) ∧
      (1 + r.stream (r.pos + 1) % 10 ≤ 8 →
        (create_room r floor).1.monster_level = 0 ∧
        (create_room r floor).1.treasure_id = 0 ∧
        (create_room r floor).1.feature =
          featureOfNat (1 + r.stream (r.pos + 1) % 10) ∧
        (create_room r floor).1.feature ≠ .EMPTY))) := by
  unfold create_room
  simp only [Rng.randFloat, Rng.randint, Rng.next]
  constructor
  · intro hle
    rw [if_neg (by omega)]
  · intro hgt
    rw [if_pos (by omega)]
    constructor
    · intro hroll
      rw [if_pos (by omega)]
      have hd : 0 < min 10 (floor + 1 + 5) + 1 - (floor + 1) := by omega
      have hmod := Nat.mod_lt (r.stream (r.pos + 1 + 1)) hd
      refine ⟨rfl, rfl, ?_, ?_⟩ <;>
        · simp only
          omega
    · intro hroll
      rw [if_neg (by omega)]
      exact ⟨rfl, rfl, rfl,
        featureOfNat_ne_empty (by omega) (by omega)⟩

/-- Witness for `create_room_spec`: a concrete draw above the `0.3`
threshold whose roll is 2, yielding a scroll feature. -/
theorem create_room_spec_witness :
    10 * ((floatDenom - 1) % floatDenom) > 3 * floatDenom ∧
      (create_room ⟨fun _ => floatDenom - 1, 0⟩ 0).1.feature = .SCROLL := by
  have h := (create_room_spec ⟨fun _ => floatDenom - 1, 0⟩ 0 (by norm_num)).2
  refine ⟨by norm_num [floatDenom], ?_⟩
  have h2 := (h (by norm_num [floatDenom])).2 (by norm_num [floatDenom])
  rw [h2.2.2.1]
  norm_num [floatDenom, featureOfNat]

/-! ## C7: attribute clamping -/

/-- C7: after any attribute-changing effect — the model's
`apply_attribute_change` used by the vendor session's potion, or the
engine's `_apply_attribute_change` used by the field potion and the shop
attribute potion, with any target, delta sign and magnitude — STR, DEX
and IQ stay in `[1, 18]`, max HP stays at least 1, and current HP never
exceeds max HP. -/
theorem attribute_change_clamps (p : Player) (target : String)
    (change : Int) (r : Rng) (randomize : Bool) (h : StatsOK p) :
    StatsOK (p.apply_attribute_change target change) ∧
      StatsOK (engine_apply_attribute_change p r target change randomize).1 := by
  obtain ⟨h₁, h₂, h₃, h₄, h₅, h₆, h₇, h₈⟩ := h
  constructor
  · unfold Player.apply_attribute_change
    repeat' split
    all_goals refine ⟨?_, ?_, ?_, ?_, ?_, ?_, ?_, ?_⟩ <;> dsimp only <;> omega
  · unfold engine_apply_attribute_change
    simp only [Rng.choice, Rng.next]
    repeat' split
    all_goals refine ⟨?_, ?_, ?_, ?_, ?_, ?_, ?_, ?_⟩ <;> dsimp only <;> omega

/-- Witness for `attribute_change_clamps`: a −100 max-HP delta on the
test player still leaves the clamped invariant intact. -/
theorem attribute_change_clamps_witness :
    StatsOK testPlayer ∧
      (StatsOK (testPlayer.apply_attribute_change "MHP" (-100)) ∧
        StatsOK (engine_apply_attribute_change testPlayer ⟨zeroStream, 0⟩
          "MHP" (-100) true).1) :=
  ⟨by decide,
    attribute_change_clamps testPlayer "MHP" (-100) ⟨zeroStream, 0⟩ true
      (by decide)⟩

/-! ## C6: vendor weapon and armor purchases -/

/-- C6 counterexample: in the vendor session, a player owning the
tier-3 Broadsword who buys the tier-1 Dagger has the equipped tier
*lowered* to 1 (and pays the 10 gold) — the purchase is not
upgrade-only. -/
theorem vendor_purchase_downgrades :
    ((vendor_handle_shop_weapons c6Vendor "D").1.player.weapon_tier,
      (vendor_handle_shop_weapons c6Vendor "D").1.player.gold,
      c6Vendor.player.weapon_tier) = (1, 90, 3) ∧ (1 : Nat) < 3 :=
  ⟨by decide, by decide⟩

/-- C6 (amended): an affordable vendor-session weapon or armor purchase
sets the equipped tier to the purchased tier unconditionally (it can
lower it), clears the broken/damaged flag, and deducts the listed price;
the engine revision upgrades only when the purchased tier exceeds the
current one and always deducts the price, but never clears the broken
flag. -/
theorem vendor_purchase_spec :
    (∀ (s : VendorState) (raw : String) (tier : Nat),
      vendor_weapon_tier raw = some tier → tier_price tier ≤ s.player.gold →
      (vendor_handle_shop_weapons s raw).1.player.weapon_tier = tier ∧
        (vendor_handle_shop_weapons s raw).1.player.weapon_broken = false ∧
        (vendor_handle_shop_weapons s raw).1.player.gold =
          s.player.gold - tier_price tier) ∧
    (∀ (s : VendorState) (raw : String) (tier : Nat),
      vendor_armor_tier raw = some tier → tier_price tier ≤ s.player.gold →
      (vendor_handle_shop_armor s raw).1.player.armor_tier = tier ∧
        (vendor_handle_shop_armor s raw).1.player.armor_damaged = false ∧
        (vendor_handle_shop_armor s raw).1.player.gold =
          s.player.gold - tier_price tier) ∧
    (∀ (st : GameState) (raw : String),
      (raw = "1" ∨ raw = "2" ∨ raw = "3") →
      tier_price (if raw = "1" then 1 else if raw = "2" then 2 else 3) ≤
        st.player.gold →
      (engine_handle_shop_weapons st raw).1.player.gold =
          st.player.gold -
            tier_price (if raw = "1" then 1 else if raw = "2" then 2 else 3) ∧
        (engine_handle_shop_weapons st raw).1.player.weapon_tier =
          max st.player.weapon_tier
            (if raw = "1" then 1 else if raw = "2" then 2 else 3) ∧
        (engine_handle_shop_weapons st raw).1.player.weapon_broken =
          st.player.weapon_broken) := by
  refine ⟨?_, ?_, ?_⟩
  · intro s raw tier hmap hgold
    rw [vendor_handle_shop_weapons, hmap]
    dsimp only
    rw [if_neg (by omega)]
    exact ⟨rfl, rfl, rfl⟩
  · intro s raw tier hmap hgold
    rw [vendor_handle_shop_armor, hmap]
    dsimp only
    rw [if_neg (by omega)]
    exact ⟨rfl, rfl, rfl⟩
  · intro st raw hraw hgold
    rw [engine_handle_shop_weapons, if_pos hraw]
    dsimp only
    rw [if_neg (by omega)]
    refine ⟨?_, ?_, ?_⟩ <;>
      · try dsimp only
        repeat' split
        all_goals try dsimp only
        all_goals first | omega | rfl

/-- Witness for `vendor_purchase_spec`: the test player (tier 1 weapon,
100 gold) buys the Short sword from the session and the engine. -/
theorem vendor_purchase_spec_witness :
    (vendor_weapon_tier "S" = some 2 ∧
      tier_price 2 ≤ testPlayer.gold) ∧
    ((vendor_handle_shop_weapons
        { rng := ⟨zeroStream, 0⟩, player := testPlayer, phase := "item",
          category := some "W" } "S").1.player.weapon_tier = 2 ∧
      (vendor_handle_shop_weapons
        { rng := ⟨zeroStream, 0⟩, player := testPlayer, phase := "item",
          category := some "W" } "S").1.player.weapon_broken = false ∧
      (vendor_handle_shop_weapons
        { rng := ⟨zeroStream, 0⟩, player := testPlayer, phase := "item",
          category := some "W" } "S").1.player.gold =
        testPlayer.gold - tier_price 2) :=
  ⟨⟨by decide, by decide⟩,
    vendor_purchase_spec.1
      { rng := ⟨zeroStream, 0⟩, player := testPlayer, phase := "item",
        category := some "W" } "S" 2 (by decide) (by decide)⟩

/-! ## C5: Fireball damage -/

/-- C5 counterexample: in the engine revision (`engine.Game._cast_spell`)
the Fireball damage is `max(uniform(1,5) - iq // 3, 0)` — the
intelligence term is *subtracted*.  With IQ 18 and a roll of 1 the
monster's vitality does not change at all, instead of decreasing by
`1 + floor(18/3) = 7` as the claim demands. -/
theorem fireball_engine_subtracts_iq :
    ((handle_spell_choice 5 c5State "2").map fun p =>
      (p.1.encounter.map Encounter.vitality, p.1.player.spells .FIREBALL))
      = some (some 5, 0) ∧ c5State.encounter.map Encounter.vitality = some 5 ∧
      (5 : Int) - (1 + 18 / 3) ≠ 5 :=
  ⟨by decide, by decide, by decide⟩

/-- C5 (amended): in the session implementation
(`encounter.EncounterSession._cast_spell`) a Fireball cast with a charge
available and IQ ≥ 12 deals exactly `uniform(1,5) + floor(IQ/3)` damage
to the monster's vitality; when that overkills, the death handler leaves
the vitality at exactly 0.  (The engine revision instead subtracts the
IQ term, see the counterexample.) -/
theorem session_fireball_damage (s : SessionState)
    (hiq : 12 ≤ s.player.iq) (hch : 0 < s.player.spells .FIREBALL) :
    (session_handle_spell_choice s "F").1.vitality =
      if s.vitality -
          ((1 + s.rng.stream s.rng.pos % 5 : Nat) + Int.fdiv s.player.iq 3) > 0
      then s.vitality -
        ((1 + s.rng.stream s.rng.pos % 5 : Nat) + Int.fdiv s.player.iq 3)
      else 0 := by
  rw [session_handle_spell_choice]
  rw [show session_spell_map ("F".take 1) = some .FIREBALL from rfl]
  try dsimp only
  rw [if_neg (by omega), if_neg (by omega)]
  rw [session_cast_spell]
  simp only [Rng.randint, Rng.next]
  try dsimp only
  rw [session_after_spell]
  split
  · rename_i hle
    rw [if_neg (by try dsimp only at hle ⊢; omega)]
    rw [session_handle_monster_death]
    try dsimp only
    split
    · rw [session_monster_attack]
      try dsimp only
      split
      · rfl
      · split <;> rfl
    · rfl
  · rename_i hgt
    rw [if_pos (by try dsimp only at hgt ⊢; omega)]
    rw [session_monster_attack]
    try dsimp only
    split
    · rfl
    · split <;> rfl

/-- Witness for `session_fireball_damage`: the concrete session
(IQ 18, vitality 20, zero draws) loses exactly `1 + 6 = 7` vitality. -/
theorem session_fireball_damage_witness :
    (session_handle_spell_choice c5Session "F").1.vitality = 13 := by
  have h := session_fireball_damage c5Session (by decide) (by decide)
  rw [h]
  decide

/-! ## C4: unrecognized explore commands -/

/-- C4 counterexample: `step` keys on the *first character* of the
normalised command, so the token "NQ" — which is not a member of the
explore alphabet — is treated as `N`: the player moves north (row 3 to
row 2) and an empty-room narration is emitted instead of the
"unrecognized command" notice. -/
theorem step_accepts_token_outside_alphabet :
    ("NQ" ∈ (["N", "S", "E", "W", "U", "D", "F", "X", "L", "O", "R", "P",
      "B", "H"] : List String)) = False ∧
    ((step 5 c4State "NQ").map fun p => (p.1.player.y, p.1.player.x, p.2.events))
      = some (2, 3, [Event.info "This room is empty."]) :=
  ⟨by decide, by decide⟩

/-- C4 (amended): in Explore mode with no active sub-session, a command
whose normalised *first character* is outside the explore alphabet
`{N,S,E,W,U,D,F,X,L,O,R,P,B,H}` yields exactly the "I don't understand
that." error; the whole game state — dungeon, player, mode and the
random generator — is returned unchanged. -/
theorem step_rejects_unknown_first_char (fuel : Nat) (st : GameState)
    (cmd : String) (key : Char) (rest : List Char)
    (hm : st.mode = .EXPLORE) (hs : st.shop_state = none)
    (ha : st.awaiting_spell = false)
    (hk : (normalize_command cmd).toList = key :: rest)
    (hout : key ∉ EXPLORE_COMMANDS) :
    step fuel st cmd = some (st,
      { events := [.error "I don't understand that."], mode := .EXPLORE,
        needs_input := true }) := by
  have hne : ¬(normalize_command cmd = "") := by
    intro h
    rw [h] at hk
    have h0 : ("" : String).toList = ([] : List Char) := rfl
    rw [h0] at hk
    exact List.noConfusion hk
  rw [step]
  rw [if_neg hne, if_neg (by rw [hm]; decide), if_neg (by rw [hs]; decide),
    if_neg (by rw [ha]; decide), hk, hm]
  dsimp only
  rw [if_pos hout]

/-- Witness for `step_rejects_unknown_first_char` with the token "Q". -/
theorem step_rejects_unknown_first_char_witness :
    step 5 c4State "Q" = some (c4State,
      { events := [.error "I don't understand that."], mode := .EXPLORE,
        needs_input := true }) :=
  step_rejects_unknown_first_char 5 c4State "Q" 'Q' [] rfl rfl rfl
    (by decide) (by decide)

/-! ## C3: death during the final desperate retaliation -/

/-- C3 (code bug): evaluating `engine.Game._handle_monster_death` at a
state where the 30% final retaliation fires and kills the player
(hit points 1, damage 3): the events show "YOU HAVE DIED.", yet the
function still grants loot (gold 100 → 105 and a loot event), clears the
room's monster, closes the encounter — and resets the mode to Explore,
overwriting the GameOver set by the retaliation.  The repository's own
test (`tests/test_encounter.py::test_final_attack_death_ends_game_without_loot`)
requires GameOver and no loot, as the claim states. -/
theorem final_retaliation_death_still_loots :
    ((handle_monster_death c3State).1.mode,
      (handle_monster_death c3State).1.player.hp,
      (handle_monster_death c3State).1.player.gold,
      ((handle_monster_death c3State).1.dungeon 0 3 3).monster_level,
      (handle_monster_death c3State).1.encounter.isSome,
      (handle_monster_death c3State).2)
    = (Mode.EXPLORE, -2, 105, 0, false,
      [Event.combat "The foul Skeleton expires.",
        Event.combat "As it dies, it launches one final desperate attack.",
        Event.combat "The Skeleton hits you!",
        Event.info "YOU HAVE DIED.",
        Event.loot "You found 5 gold pieces."]) := by
  decide

/-! ## C10: relocations preserve the floor and change the cell -/

/-- The relocation loop accepts only a `(row, column)` pair different
from the current one, and never touches the floor. -/
lemma relocate_loop_spec :
    ∀ (fuel : Nat) (st st' : GameState),
      relocate_loop fuel st = some st' →
      ¬(st'.player.y = st.player.y ∧ st'.player.x = st.player.x) ∧
        st'.player.z = st.player.z ∧ st'.player.y < 7 ∧ st'.player.x < 7
  | 0, st, st', h => by simp [relocate_loop] at h
  | fuel + 1, st, st', h => by
    rw [relocate_loop] at h
    simp only [Rng.randint, Rng.next] at h
    split at h
    · have h' := relocate_loop_spec fuel _ st' h
      exact h'
    · rename_i hcell
      rw [Option.some.injEq] at h
      subst h
      refine ⟨by simpa using hcell, rfl, ?_, ?_⟩ <;>
        · dsimp only
          omega

/-- C10: every `_random_relocate` lands on a `(row, column)` pair
different from the pre-relocation one (so a room on another floor above
or below the player is never chosen), and with `any_floor=False` — the
variant used by the flee and Teleport paths — the floor is unchanged;
the encounter session's successful flee and its Teleport cast both
request exactly that same-floor relocation
(`relocate=True, relocate_any_floor=False`). -/
theorem relocation_spec :
    (∀ (any_floor : Bool) (fuel : Nat) (st st' : GameState),
      random_relocate any_floor fuel st = some st' →
      ¬(st'.player.y = st.player.y ∧ st'.player.x = st.player.x) ∧
        (any_floor = false → st'.player.z = st.player.z)) ∧
    (∀ s : SessionState, s.player.fatigued = false →
      5 * (s.rng.stream s.rng.pos % floatDenom) < 2 * floatDenom →
      (session_run_attempt s).2.done = true ∧
        (session_run_attempt s).2.relocate = true ∧
        (session_run_attempt s).2.relocate_any_floor = false) ∧
    (∀ s : SessionState,
      (session_cast_spell s .TELEPORT).2.done = true ∧
        (session_cast_spell s .TELEPORT).2.relocate = true ∧
        (session_cast_spell s .TELEPORT).2.relocate_any_floor = false) := by
  refine ⟨?_, ?_, ?_⟩
  · intro any_floor fuel st st' h
    rw [random_relocate] at h
    split at h
    · rename_i hfloor
      simp only [Rng.randint, Rng.next] at h
      have := relocate_loop_spec fuel _ st' h
      exact ⟨this.1, by intro hf; rw [hfloor] at hf; exact absurd hf (by decide)⟩
    · have := relocate_loop_spec fuel _ st' h
      exact ⟨this.1, fun _ => this.2.1⟩
  · intro s hfat hdraw
    rw [session_run_attempt, hfat]
    simp only [Rng.randFloat, Rng.next, Bool.false_eq_true, if_false]
    rw [if_pos hdraw]
    exact ⟨rfl, rfl, rfl⟩
  · intro s
    rw [session_cast_spell]
    exact ⟨rfl, rfl, rfl⟩

/-- Witness for `relocation_spec`: a concrete same-floor relocation from
`(0,3,3)` to `(0,0,0)`, a concrete successful flee and a Teleport cast. -/
theorem relocation_spec_witness :
    (∃ st', random_relocate false 3 c4State = some st' ∧
      ¬(st'.player.y = c4State.player.y ∧ st'.player.x = c4State.player.x) ∧
      (false = false → st'.player.z = c4State.player.z)) ∧
    ((session_run_attempt c10Session).2.done = true ∧
      (session_run_attempt c10Session).2.relocate = true ∧
      (session_run_attempt c10Session).2.relocate_any_floor = false) ∧
    ((session_cast_spell c10Session .TELEPORT).2.done = true ∧
      (session_cast_spell c10Session .TELEPORT).2.relocate = true ∧
      (session_cast_spell c10Session .TELEPORT).2.relocate_any_floor = false) := by
  refine ⟨?_, relocation_spec.2.1 c10Session rfl (by decide),
    relocation_spec.2.2 c10Session⟩
  obtain ⟨st', hst⟩ : ∃ p, random_relocate false 3 c4State = some p := by
    have hs : (random_relocate false 3 c4State).isSome = true := by decide
    exact Option.isSome_iff_exists.mp hs
  exact ⟨st', hst, relocation_spec.1 false 3 c4State st' hst⟩

/-! ## C9: the warp chain need not terminate -/

/-- On the ping-pong stream the warp re-entry never finishes: whatever
fuel is provided, `_enter_room` is still relocating between the two warp
rooms when it runs out. -/
lemma warp_loop_none :
    ∀ (n : Nat) (st : GameState), WarpPing st → enter_room n st = none
  | 0, _, _ => rfl
  | n + 1, st, hp => by
    obtain ⟨hstream, ⟨hfA, hmA, htA⟩, ⟨hfB, hmB, htB⟩, hcase⟩ := hp
    rcases hcase with ⟨hp6, hz, hy, hx⟩ | ⟨hp6, hz, hy, hx⟩
    · have e1 : st.rng.stream st.rng.pos = 1 := by
        rw [hstream]; unfold pingStream; rw [if_pos (by omega)]
      have e2 : st.rng.stream (st.rng.pos + 1) = 1 := by
        rw [hstream]; unfold pingStream; rw [if_pos (by omega)]
      have e3 : st.rng.stream (st.rng.pos + 1 + 1) = 1 := by
        rw [hstream]; unfold pingStream; rw [if_pos (by omega)]
      rw [enter_room]
      simp only [hz, hy, hx, hfA, hmA, htA, e1, e2, e3, random_relocate,
        relocate_loop, Rng.randint, Rng.next]
      norm_num
      simp only [hz, hy, hx, e1, e2, e3]
      norm_num
      apply warp_loop_none n
      refine ⟨hstream, ?_, ?_, Or.inr ⟨by dsimp only; omega, rfl, rfl, rfl⟩⟩
      · simp [setRoom, hfA, hmA, htA]
      · simp [setRoom, hfB, hmB, htB]
    · have e1 : st.rng.stream st.rng.pos = 0 := by
        rw [hstream]; unfold pingStream; rw [if_neg (by omega)]
      have e2 : st.rng.stream (st.rng.pos + 1) = 0 := by
        rw [hstream]; unfold pingStream; rw [if_neg (by omega)]
      have e3 : st.rng.stream (st.rng.pos + 1 + 1) = 0 := by
        rw [hstream]; unfold pingStream; rw [if_neg (by omega)]
      rw [enter_room]
      simp only [hz, hy, hx, hfB, hmB, htB, e1, e2, e3, random_relocate,
        relocate_loop, Rng.randint, Rng.next]
      norm_num
      simp only [hz, hy, hx, e1, e2, e3]
      norm_num
      apply warp_loop_none n
      refine ⟨hstream, ?_, ?_, Or.inl ⟨by dsimp only; omega, rfl, rfl, rfl⟩⟩
      · simp [setRoom, hfA, hmA, htA]
      · simp [setRoom, hfB, hmB, htB]

/-- C9 counterexample: from the warp room of `c9State`, with the
ping-pong stream, even a fuel of 344 — one more than the dungeon's 343
rooms — is exhausted: the warp chain is not bounded by the dungeon
size. -/
theorem warp_chain_exceeds_dungeon_size : enter_room 344 c9State = none :=
  warp_loop_none 344 c9State
    ⟨rfl, ⟨by decide, by decide, by decide⟩, ⟨by decide, by decide, by decide⟩,
      Or.inl ⟨rfl, rfl, rfl, rfl⟩⟩

/-- C9 (amended): room re-entry is not guaranteed to terminate and warp
chains are not bounded by the dungeon size: warp rooms are never consumed
and `_enter_room` recurses without a cap, so on a state with two warp
rooms and a stream that keeps relocating between them, `_enter_room`
fails to complete for *every* fuel bound.  (A chain does terminate as
soon as the stream relocates onto a non-warp room.) -/
theorem warp_chain_unbounded : ∀ n : Nat, enter_room n c9State = none :=
  fun n => warp_loop_none n c9State
    ⟨rfl, ⟨by decide, by decide, by decide⟩, ⟨by decide, by decide, by decide⟩,
      Or.inl ⟨rfl, rfl, rfl, rfl⟩⟩

end Dungeon
